import Mathlib

/-!
# The SuperLU adapter module `_superlumodule.c`

A shallow embedding of `scipy/sparse/linalg/dsolve/_superlumodule.c`: the five
NULL-safe destroy wrappers and the two entry points `Py_gssv` (direct solve)
and `Py_gstrf` (factorize).

The C functions are sequences of calls into the host (Python/numpy) and into the
native SuperLU library.  The embedding keeps the function-local variables as
explicit state and records every such call, in program order, in a trace of
`Event`s.  What the external routines do on a given call (their return values,
the pointers they leave in their out-parameters, whether they end in `longjmp`)
is not decided by this file; it is supplied by an `Oracle`, and every theorem
quantifies over all oracles.
-/

namespace SuperLU

/-! ## Data model -/

/-- The four `SuperMatrix` locals of `Py_gssv` (`Py_gstrf` has only `A`). -/
inductive Handle where
  | A
  | B
  | L
  | U
deriving DecidableEq, Repr

/-- The two permutation vectors of `Py_gssv`. -/
inductive Perm where
  | perm_r
  | perm_c
deriving DecidableEq, Repr

/-- The exception classes raised by the module itself through `PyErr_SetString`. -/
inductive Exc where
  | TypeError
  | ValueError
deriving DecidableEq, Repr

/-- The storage descriptor a non-null `SuperMatrix.Store` points to: the address of
the descriptor block and the address of the value buffer it refers to. -/
structure Store where
  addr : Nat
  nzval : Nat
deriving DecidableEq, Repr

/-- The `SuperMatrix` handle; `Store = none` is the NULL pointer. -/
structure SuperMatrix where
  nrow : Int
  ncol : Int
  Store : Option Store
deriving DecidableEq, Repr

/-- The statistics record; `ops = none` is the NULL pointer. -/
structure SuperLUStat_t where
  ops : Option Nat
deriving DecidableEq, Repr

/-- A numpy array object as far as this module looks at it: the address of its data
buffer, its type number (`PyArray_TYPE`) and its dimensions. -/
structure PyArrayObject where
  data : Nat
  typenum : Int
  dimensions : List Int
deriving DecidableEq, Repr

/-- What `intMalloc` did: it returned a pointer, or it left through `longjmp`. -/
inductive MallocOutcome where
  | returned (p : Option Nat)
  | jumped
deriving DecidableEq, Repr

/-- What `StatInit` did, and the value of `stat->ops` it left behind. -/
inductive StatInitOutcome where
  | returned (ops : Option Nat)
  | jumped (ops : Option Nat)
deriving DecidableEq, Repr

/-- What `gssv` did: the `Store` pointers it left in `L` and `U`, and on a normal
return the diagnostic code `info`. -/
inductive GssvOutcome where
  | returned (L U : Option Store) (info : Int)
  | jumped (L U : Option Store)
deriving DecidableEq, Repr

/-- What a matrix-view constructor (`NCFormat_from_spMatrix`, `NRFormat_from_spMatrix`,
`DenseSuper_from_Numeric`) did: its return status (nonzero is failure) and the address
of the descriptor it left in `Store` (none is NULL). -/
structure ViewResult where
  status : Int
  store : Option Nat
deriving DecidableEq, Repr

/-- The calls made by the module, with their arguments and observable results. -/
inductive Event where
  | PyErr_SetString (exc : Exc) (msg : String)
  | set_superlu_options_from_dict
  | PyArray_FROMANY (obj : Nat) (result : Option Nat)
  | Py_DECREF (data : Nat)
  | Py_XDECREF (data : Option Nat)
  | NCFormat_from_spMatrix (h : Handle) (status : Int) (store : Option Store)
  | NRFormat_from_spMatrix (h : Handle) (status : Int) (store : Option Store)
  | DenseSuper_from_Numeric (h : Handle) (data : Nat) (status : Int) (store : Option Store)
  | superlu_python_jmpbuf
  | SLU_BEGIN_THREADS
  | SLU_END_THREADS
  | setjmp
  | longjmp
  | intMalloc (target : Perm) (out : MallocOutcome)
  | StatInit (out : StatInitOutcome)
  | gssv (B : Option Store) (out : GssvOutcome)
  | SUPERLU_FREE (target : Perm) (p : Option Nat)
  | Destroy_SuperMatrix_Store (h : Handle) (store : Option Store)
  | Destroy_SuperNode_Matrix (h : Handle) (store : Option Store)
  | Destroy_CompCol_Matrix (h : Handle) (store : Option Store)
  | Destroy_CompCol_Permuted (h : Handle) (store : Option Store)
  | StatFree (ops : Option Nat)
  | newSuperLUObject (A : Option Store)
  | Py_BuildValue
deriving DecidableEq, Repr

/-- Host memory: a list of buffers, a buffer's address being its index. -/
abbrev Memory := List (List Int)

/-- An options mapping: keys with (abstract) values. -/
abbrev Dict := List (String × Int)

/-! ## NULL-safe deconstruction functions (lines 23-62) -/

/-- Modelled from the spec: the SuperLU routine `Destroy_SuperMatrix_Store` is not part of
this file.  Section 4.1: destroying a view frees only the thin descriptor.  The call is
recorded with the `Store` pointer it is given; the handle is handed back as it is. -/
def Destroy_SuperMatrix_Store (h : Handle) (A : SuperMatrix) (tr : List Event) :
    SuperMatrix × List Event :=
  (A, tr ++ [Event.Destroy_SuperMatrix_Store h A.Store])

/-- Modelled from the spec: the SuperLU routine `Destroy_SuperNode_Matrix` is not part of
this file.  Section 3: an owned handle frees its buffers on destruction.  The call is
recorded with the `Store` pointer it is given; the handle is handed back as it is. -/
def Destroy_SuperNode_Matrix (h : Handle) (A : SuperMatrix) (tr : List Event) :
    SuperMatrix × List Event :=
  (A, tr ++ [Event.Destroy_SuperNode_Matrix h A.Store])

/-- Modelled from the spec: the SuperLU routine `Destroy_CompCol_Matrix` is not part of
this file.  Section 3: an owned handle frees its buffers on destruction.  The call is
recorded with the `Store` pointer it is given; the handle is handed back as it is. -/
def Destroy_CompCol_Matrix (h : Handle) (A : SuperMatrix) (tr : List Event) :
    SuperMatrix × List Event :=
  (A, tr ++ [Event.Destroy_CompCol_Matrix h A.Store])

/-- Modelled from the spec: the SuperLU routine `Destroy_CompCol_Permuted` is not part of
this file.  Section 3: an owned handle frees its buffers on destruction.  The call is
recorded with the `Store` pointer it is given; the handle is handed back as it is. -/
def Destroy_CompCol_Permuted (h : Handle) (A : SuperMatrix) (tr : List Event) :
    SuperMatrix × List Event :=
  (A, tr ++ [Event.Destroy_CompCol_Permuted h A.Store])

/-- Modelled from the spec: the SuperLU routine `StatFree` is not part of this file.
Section 4.4: the statistics are freed before returning.  The call is recorded with the
`ops` pointer it is given; the record is handed back as it is. -/
def StatFree (stat : SuperLUStat_t) (tr : List Event) : SuperLUStat_t × List Event :=
  (stat, tr ++ [Event.StatFree stat.ops])

/-- Lines 26-30: the native destroy is called as it is, then `Store` is cleared. -/
def XDestroy_SuperMatrix_Store (h : Handle) (A : SuperMatrix) (tr : List Event) :
    SuperMatrix × List Event :=
  let r := Destroy_SuperMatrix_Store h A tr
  ({ r.1 with Store := none }, r.2)

/-- Lines 32-38. -/
def XDestroy_SuperNode_Matrix (h : Handle) (A : SuperMatrix) (tr : List Event) :
    SuperMatrix × List Event :=
  let r := if A.Store.isSome then Destroy_SuperNode_Matrix h A tr else (A, tr)
  ({ r.1 with Store := none }, r.2)

/-- Lines 40-46. -/
def XDestroy_CompCol_Matrix (h : Handle) (A : SuperMatrix) (tr : List Event) :
    SuperMatrix × List Event :=
  let r := if A.Store.isSome then Destroy_CompCol_Matrix h A tr else (A, tr)
  ({ r.1 with Store := none }, r.2)

/-- Lines 48-54. -/
def XDestroy_CompCol_Permuted (h : Handle) (A : SuperMatrix) (tr : List Event) :
    SuperMatrix × List Event :=
  let r := if A.Store.isSome then Destroy_CompCol_Permuted h A tr else (A, tr)
  ({ r.1 with Store := none }, r.2)

/-- Lines 56-62. -/
def XStatFree (stat : SuperLUStat_t) (tr : List Event) : SuperLUStat_t × List Event :=
  let r := if stat.ops.isSome then StatFree stat tr else (stat, tr)
  ({ r.1 with ops := none }, r.2)

/-! ## Host, oracle and call records -/

/-- The macros and tables of `_superluobject.h` / `_superluobject.c` that the two entry
points use and that are not part of this file: the index-kind test `_CHECK_INTEGER`,
the element-kind test `CHECK_SLU_TYPE`, the table of recognised option names, the
default options record, and the conversion of the option values (which may reject a
value).  The integer argument of the last two is the `ilu` flag. -/
structure Host where
  _CHECK_INTEGER : PyArrayObject → Bool
  CHECK_SLU_TYPE : Int → Bool
  recognized : String → Bool
  defaults : Int → Dict
  convert : Int → Dict → Option Dict

/-- The behaviour of the external routines during one call. -/
structure Oracle where
  /-- `PyArray_FROMANY`: failure, or the dimensions and column-major content of the
  converted right-hand side. -/
  fromany : Option (List Int × List Int)
  /-- Whether the object passed to `PyArray_FROMANY` already is a column-major
  contiguous array of the requested type. -/
  conforming : Bool
  NCFormat : ViewResult
  NRFormat : ViewResult
  DenseSuper : ViewResult
  /-- The first `intMalloc` call (for `perm_c`). -/
  intMalloc_c : MallocOutcome
  /-- The second `intMalloc` call (for `perm_r`). -/
  intMalloc_r : MallocOutcome
  StatInit : StatInitOutcome
  gssv : GssvOutcome
  /-- What `gssv` leaves in the buffer of its right-hand side `B`. -/
  solution : List Int
  /-- The factorisation inside `newSuperLUObject`: the new object, or failure. -/
  factor : Option Nat
  /-- Whether `perm_c`, read at the `fail` label after a `longjmp`, still has the value
  assigned to it after the `setjmp` (see `after_longjmp`). -/
  longjmp_keeps_perm_c : Bool
  /-- Whether `perm_r`, read at the `fail` label after a `longjmp`, still has the value
  assigned to it after the `setjmp` (see `after_longjmp`). -/
  longjmp_keeps_perm_r : Bool

/-- The arguments of `Py_gssv` as stored by `PyArg_ParseTupleAndKeywords`
(format `iiO!O!O!O|iO`); `Py_B` is the address of the caller's right-hand side,
`option_dict = none` is the NULL default. -/
structure GssvArgs where
  N : Int
  nnz : Int
  nzvals : PyArrayObject
  colind : PyArrayObject
  rowptr : PyArrayObject
  Py_B : Nat
  csc : Int
  option_dict : Option Dict

/-- The arguments of `Py_gstrf` as stored by `PyArg_ParseTupleAndKeywords`
(format `iiO!O!O!|Oi`). -/
structure GstrfArgs where
  N : Int
  nnz : Int
  nzvals : PyArrayObject
  rowind : PyArrayObject
  colptr : PyArrayObject
  option_dict : Option Dict
  ilu : Int

/-- Why an entry point returned NULL: an exception raised by the module itself, or the
failure of the named callee (which set the exception), or the abrupt return of a
native routine to the recovery point. -/
inductive Failure where
  | PyArg_ParseTupleAndKeywords
  | raised (exc : Exc) (msg : String)
  | set_superlu_options_from_dict
  | PyArray_FROMANY
  | NCFormat_from_spMatrix
  | NRFormat_from_spMatrix
  | DenseSuper_from_Numeric
  | longjmp
  | newSuperLUObject
deriving DecidableEq, Repr

/-- The objects the entry points return: the pair built by `Py_BuildValue("Ni", Py_X, info)`
and the factor object made by `newSuperLUObject`. -/
inductive PyObject where
  | tuple (Py_X : PyArrayObject) (info : Int)
  | SuperLU (obj : Nat)
deriving DecidableEq, Repr

/-- A finished call: the returned object or the reason for NULL, the calls made, and the
host memory afterwards. -/
structure Run where
  result : Except Failure PyObject
  trace : List Event
  mem : Memory

/-- The flags given to `PyArray_FROMANY`. -/
structure Flags where
  NPY_F_CONTIGUOUS : Bool
  NPY_ENSURECOPY : Bool

/-! ## External routines -/

/-- Modelled from the spec: `set_superlu_options_from_dict` of `_superluobject.c` is not
part of this file.  Section 4.2: missing keys take defaults (a NULL mapping is all
defaults), an unrecognized key fails, and the values are converted into the options
record (the conversion is the host's `convert` and may reject a value). -/
def set_superlu_options_from_dict (h : Host) (ilu : Int) (option_dict : Option Dict) :
    Option Dict :=
  match option_dict with
  | none => some (h.defaults ilu)
  | some d => if d.all (fun kv => h.recognized kv.1) then h.convert ilu d else none

/-- The numpy routine `PyArray_FROMANY(obj, type, min, max, flags)`.  The conversion
itself is the oracle's.  With `NPY_ENSURECOPY` the result is always a new array in a
new buffer; without it an object that already conforms is returned as it is. -/
def PyArray_FROMANY (o : Oracle) (mem : Memory) (obj : Nat) (type : Int)
    (_min_depth _max_depth : Nat) (flags : Flags) : Option PyArrayObject × Memory :=
  match o.fromany with
  | none => (none, mem)
  | some (dims, content) =>
    if !flags.NPY_ENSURECOPY && o.conforming then
      (some { data := obj, typenum := type, dimensions := dims }, mem)
    else
      (some { data := mem.length, typenum := type, dimensions := dims }, mem ++ [content])

/-- Modelled from the spec: `NCFormat_from_spMatrix` of `_superluobject.c` is not part
of this file.  Section 4.1: on success it produces a borrowed compressed-column handle
that aliases the caller's value buffer; status and descriptor address are the oracle's. -/
def NCFormat_from_spMatrix (o : Oracle) (h : Handle) (m n _nnz : Int)
    (nzvals _rowind _colptr : PyArrayObject) (_typenum : Int) (tr : List Event) :
    Int × SuperMatrix × List Event :=
  let st := o.NCFormat.store.map (fun p => Store.mk p nzvals.data)
  (o.NCFormat.status, { nrow := m, ncol := n, Store := st },
    tr ++ [Event.NCFormat_from_spMatrix h o.NCFormat.status st])

/-- Modelled from the spec: `NRFormat_from_spMatrix` of `_superluobject.c` is not part
of this file.  Section 4.1: on success it produces a borrowed compressed-row handle
that aliases the caller's value buffer; status and descriptor address are the oracle's. -/
def NRFormat_from_spMatrix (o : Oracle) (h : Handle) (m n _nnz : Int)
    (nzvals _colind _rowptr : PyArrayObject) (_typenum : Int) (tr : List Event) :
    Int × SuperMatrix × List Event :=
  let st := o.NRFormat.store.map (fun p => Store.mk p nzvals.data)
  (o.NRFormat.status, { nrow := m, ncol := n, Store := st },
    tr ++ [Event.NRFormat_from_spMatrix h o.NRFormat.status st])

/-- Modelled from the spec: `DenseSuper_from_Numeric` of `_superluobject.c` is not part
of this file.  Section 4.1 and the comment at line 157: on success the dense handle
shares the data of the array it is given; status and descriptor address are the
oracle's. -/
def DenseSuper_from_Numeric (o : Oracle) (h : Handle) (PyX : PyArrayObject)
    (tr : List Event) : Int × SuperMatrix × List Event :=
  let st := o.DenseSuper.store.map (fun p => Store.mk p PyX.data)
  (o.DenseSuper.status,
    { nrow := PyX.dimensions.getD 0 0, ncol := PyX.dimensions.getD 1 1, Store := st },
    tr ++ [Event.DenseSuper_from_Numeric h PyX.data o.DenseSuper.status st])

/-- Modelled from the spec: `newSuperLUObject` of `_superluobject.c` is not part of this
file.  Section 4.4 (Factorize) and 4.2: it translates the raw options mapping it is
given (an unrecognized key fails), factorises the matrix view, and returns the factor
object, or NULL on failure. -/
def newSuperLUObject (h : Host) (o : Oracle) (A : SuperMatrix) (option_dict : Option Dict)
    (_type : Int) (ilu : Int) (tr : List Event) : Option Nat × List Event :=
  let tr := tr ++ [Event.newSuperLUObject A.Store, Event.set_superlu_options_from_dict]
  match set_superlu_options_from_dict h ilu option_dict with
  | none => (none, tr)
  | some _ => (o.factor, tr)

/-! ## `Py_gssv` (lines 72-197) -/

/-- The locals of `Py_gssv` that are live from the recovery point on, with the trace and the
host memory.  `A`, `B`, `L`, `U` and `stat` are declared `volatile` (lines 83, 85), so what
is stored in them before a `longjmp` is what the `fail` label reads.  `Py_X` (line 76) is
a plain pointer, but it is not modified after the `setjmp`, so it keeps its value as
well.  `perm_r` and `perm_c` (line 82, `volatile int *perm_r, *perm_c`) are pointers to
volatile `int`, not volatile pointers, and they are assigned after the `setjmp`: see
`after_longjmp`. -/
structure Frame where
  Py_X : PyArrayObject
  perm_r : Option Nat
  perm_c : Option Nat
  A : SuperMatrix
  B : SuperMatrix
  L : SuperMatrix
  U : SuperMatrix
  stat : SuperLUStat_t
  trace : List Event
  mem : Memory

/-- Lines 187-196, the `fail` label. -/
def gssv_fail (f : Frame) : Run :=
  let tr := f.trace ++ [Event.SUPERLU_FREE Perm.perm_r f.perm_r,
                        Event.SUPERLU_FREE Perm.perm_c f.perm_c]
  let a := XDestroy_SuperMatrix_Store Handle.A f.A tr
  let b := XDestroy_SuperMatrix_Store Handle.B f.B a.2
  let l := XDestroy_SuperNode_Matrix Handle.L f.L b.2
  let u := XDestroy_CompCol_Matrix Handle.U f.U l.2
  let s := XStatFree f.stat u.2
  { result := Except.error Failure.longjmp,
    trace := s.2 ++ [Event.Py_XDECREF (some f.Py_X.data)],
    mem := f.mem }

/-- Lines 177-185, the normal exit after `gssv` has returned. -/
def gssv_done (f : Frame) (info : Int) : Run :=
  let tr := f.trace ++ [Event.SUPERLU_FREE Perm.perm_r f.perm_r,
                        Event.SUPERLU_FREE Perm.perm_c f.perm_c]
  let a := Destroy_SuperMatrix_Store Handle.A f.A tr
  let b := Destroy_SuperMatrix_Store Handle.B f.B a.2
  let l := Destroy_SuperNode_Matrix Handle.L f.L b.2
  let u := Destroy_CompCol_Matrix Handle.U f.U l.2
  let s := StatFree f.stat u.2
  { result := Except.ok (PyObject.tuple f.Py_X info),
    trace := s.2 ++ [Event.Py_BuildValue],
    mem := f.mem }

/-- Modelled from the spec: the SuperLU routine `gssv` is not part of this file.
Section 4.4: the dense buffer it is given holds the solution afterwards.  Its effect on
host memory is a write of the oracle's content into the buffer that `B` refers to. -/
def gssv_write (o : Oracle) (B : SuperMatrix) (mem : Memory) : Memory :=
  match B.Store with
  | none => mem
  | some st => mem.set st.nzval o.solution

/-- The value that the `fail` label reads, after a `longjmp`, from a local of automatic
storage that is not volatile-qualified and was assigned between the `setjmp` and the
`longjmp` (`perm_c` and `perm_r`, line 82, assigned at lines 168-169).  C leaves this
value indeterminate.  The two values that compilers produce are modelled: the assigned
one, when the variable lives in memory (`kept = true`), and the one the variable had at
the `setjmp`, when it lives in a register that `longjmp` restores (`kept = false`). -/
def after_longjmp (kept : Bool) (atSetjmp assigned : Option Nat) : Option Nat :=
  if kept then assigned else atSetjmp

/-- Lines 161-175: the recovery point and the native calls made under it.  When a native
routine ends in `longjmp`, control comes back out of `setjmp`, the threads macro is
closed and the code goes to `fail`; the values of `perm_c` and `perm_r` that `fail` then
reads are those of `after_longjmp`. -/
def gssv_protected (o : Oracle) (f : Frame) : Run :=
  let tr := f.trace ++ [Event.superlu_python_jmpbuf, Event.SLU_BEGIN_THREADS, Event.setjmp]
  match o.intMalloc_c with
  | MallocOutcome.jumped =>
    gssv_fail { f with trace := tr ++ [Event.intMalloc Perm.perm_c MallocOutcome.jumped,
                                       Event.longjmp, Event.SLU_END_THREADS] }
  | MallocOutcome.returned pc =>
    let tr := tr ++ [Event.intMalloc Perm.perm_c (MallocOutcome.returned pc)]
    match o.intMalloc_r with
    | MallocOutcome.jumped =>
      gssv_fail { f with perm_c := after_longjmp o.longjmp_keeps_perm_c f.perm_c pc,
                         trace := tr ++ [Event.intMalloc Perm.perm_r MallocOutcome.jumped,
                                         Event.longjmp, Event.SLU_END_THREADS] }
    | MallocOutcome.returned pr =>
      let tr := tr ++ [Event.intMalloc Perm.perm_r (MallocOutcome.returned pr)]
      match o.StatInit with
      | StatInitOutcome.jumped ops =>
        gssv_fail { f with perm_c := after_longjmp o.longjmp_keeps_perm_c f.perm_c pc,
                           perm_r := after_longjmp o.longjmp_keeps_perm_r f.perm_r pr,
                           stat := { ops := ops },
                           trace := tr ++ [Event.StatInit (StatInitOutcome.jumped ops),
                                           Event.longjmp, Event.SLU_END_THREADS] }
      | StatInitOutcome.returned ops =>
        let tr := tr ++ [Event.StatInit (StatInitOutcome.returned ops)]
        match o.gssv with
        | GssvOutcome.jumped l u =>
          gssv_fail { f with perm_c := after_longjmp o.longjmp_keeps_perm_c f.perm_c pc,
                             perm_r := after_longjmp o.longjmp_keeps_perm_r f.perm_r pr,
                             stat := { ops := ops },
                             L := { f.L with Store := l }, U := { f.U with Store := u },
                             mem := gssv_write o f.B f.mem,
                             trace := tr ++ [Event.gssv f.B.Store (GssvOutcome.jumped l u),
                                             Event.longjmp, Event.SLU_END_THREADS] }
        | GssvOutcome.returned l u info =>
          gssv_done { f with perm_c := pc, perm_r := pr, stat := { ops := ops },
                             L := { f.L with Store := l }, U := { f.U with Store := u },
                             mem := gssv_write o f.B f.mem,
                             trace := tr ++ [Event.gssv f.B.Store (GssvOutcome.returned l u info),
                                             Event.SLU_END_THREADS] } info

/-- Lines 72-197.  `call = none` is a call whose arguments `PyArg_ParseTupleAndKeywords`
rejects. -/
def Py_gssv (h : Host) (o : Oracle) (mem : Memory) (call : Option GssvArgs) : Run :=
  match call with
  | none => { result := Except.error Failure.PyArg_ParseTupleAndKeywords, trace := [], mem := mem }
  | some a =>
    if !h._CHECK_INTEGER a.colind || !h._CHECK_INTEGER a.rowptr then
      { result := Except.error (Failure.raised Exc.TypeError "colind and rowptr must be of type cint"),
        trace := [Event.PyErr_SetString Exc.TypeError "colind and rowptr must be of type cint"],
        mem := mem }
    else
      let type := a.nzvals.typenum
      if !h.CHECK_SLU_TYPE type then
        { result := Except.error (Failure.raised Exc.TypeError "nzvals is not of a type supported by SuperLU"),
          trace := [Event.PyErr_SetString Exc.TypeError "nzvals is not of a type supported by SuperLU"],
          mem := mem }
      else
        match set_superlu_options_from_dict h 0 a.option_dict with
        | none =>
          { result := Except.error Failure.set_superlu_options_from_dict,
            trace := [Event.set_superlu_options_from_dict], mem := mem }
        | some _options =>
          let x := PyArray_FROMANY o mem a.Py_B type 1 2
                     { NPY_F_CONTIGUOUS := true, NPY_ENSURECOPY := true }
          let tr := [Event.set_superlu_options_from_dict,
                     Event.PyArray_FROMANY a.Py_B (x.1.map (fun X => X.data))]
          match x.1 with
          | none => { result := Except.error Failure.PyArray_FROMANY, trace := tr, mem := x.2 }
          | some Py_X =>
            if Py_X.dimensions.getD 0 0 ≠ a.N then
              { result := Except.error (Failure.raised Exc.ValueError "b array has invalid shape"),
                trace := tr ++ [Event.PyErr_SetString Exc.ValueError "b array has invalid shape",
                                Event.Py_DECREF Py_X.data],
                mem := x.2 }
            else
              let va :=
                if a.csc ≠ 0 then
                  NCFormat_from_spMatrix o Handle.A a.N a.N a.nnz a.nzvals a.colind a.rowptr type tr
                else
                  NRFormat_from_spMatrix o Handle.A a.N a.N a.nnz a.nzvals a.colind a.rowptr type tr
              if va.1 ≠ 0 then
                { result := Except.error
                    (if a.csc ≠ 0 then Failure.NCFormat_from_spMatrix
                     else Failure.NRFormat_from_spMatrix),
                  trace := va.2.2 ++ [Event.Py_DECREF Py_X.data], mem := x.2 }
              else
                let vb := DenseSuper_from_Numeric o Handle.B Py_X va.2.2
                if vb.1 ≠ 0 then
                  let d := Destroy_SuperMatrix_Store Handle.A va.2.1 vb.2.2
                  { result := Except.error Failure.DenseSuper_from_Numeric,
                    trace := d.2 ++ [Event.Py_DECREF Py_X.data], mem := x.2 }
                else
                  gssv_protected o
                    { Py_X := Py_X, perm_r := none, perm_c := none,
                      A := va.2.1, B := vb.2.1,
                      L := { nrow := 0, ncol := 0, Store := none },
                      U := { nrow := 0, ncol := 0, Store := none },
                      stat := { ops := none }, trace := vb.2.2, mem := x.2 }

/-! ## `Py_gstrf` (lines 199-259) -/

/-- Lines 199-259.  `call = none` is a call whose arguments `PyArg_ParseTupleAndKeywords`
rejects. -/
def Py_gstrf (h : Host) (o : Oracle) (mem : Memory) (call : Option GstrfArgs) : Run :=
  match call with
  | none => { result := Except.error Failure.PyArg_ParseTupleAndKeywords, trace := [], mem := mem }
  | some a =>
    if !h._CHECK_INTEGER a.colptr || !h._CHECK_INTEGER a.rowind then
      { result := Except.error (Failure.raised Exc.TypeError "rowind and colptr must be of type cint"),
        trace := [Event.PyErr_SetString Exc.TypeError "rowind and colptr must be of type cint"],
        mem := mem }
    else
      let type := a.nzvals.typenum
      if !h.CHECK_SLU_TYPE type then
        { result := Except.error (Failure.raised Exc.TypeError "nzvals is not of a type supported by SuperLU"),
          trace := [Event.PyErr_SetString Exc.TypeError "nzvals is not of a type supported by SuperLU"],
          mem := mem }
      else
        let va := NCFormat_from_spMatrix o Handle.A a.N a.N a.nnz a.nzvals a.rowind a.colptr type []
        if va.1 ≠ 0 then
          let d := XDestroy_SuperMatrix_Store Handle.A va.2.1 va.2.2
          { result := Except.error Failure.NCFormat_from_spMatrix, trace := d.2, mem := mem }
        else
          let r := newSuperLUObject h o va.2.1 a.option_dict type a.ilu va.2.2
          match r.1 with
          | none =>
            let d := XDestroy_SuperMatrix_Store Handle.A va.2.1 r.2
            { result := Except.error Failure.newSuperLUObject, trace := d.2, mem := mem }
          | some obj =>
            let d := Destroy_SuperMatrix_Store Handle.A va.2.1 r.2
            { result := Except.ok (PyObject.SuperLU obj), trace := d.2, mem := mem }

/-! ## The method table (lines 297-303) -/

/-- A call of one of the two methods of the module. -/
inductive Call where
  | gssv (args : Option GssvArgs)
  | gstrf (args : Option GstrfArgs)

/-- Lines 297-303: `gssv` is `Py_gssv`, `gstrf` is `Py_gstrf`. -/
def SuperLU_Methods (h : Host) (o : Oracle) (mem : Memory) : Call → Run
  | Call.gssv args => Py_gssv h o mem args
  | Call.gstrf args => Py_gstrf h o mem args

/-! ## Trace predicates -/

/-- The transient native resources of `Py_gssv`. -/
inductive Resource where
  | perm_r
  | perm_c
  | A
  | B
  | L
  | U
  | stat
deriving DecidableEq, Repr

/-- The resource held by a handle. -/
def Resource.ofHandle : Handle → Resource
  | Handle.A => Resource.A
  | Handle.B => Resource.B
  | Handle.L => Resource.L
  | Handle.U => Resource.U

/-- The resource held by a permutation pointer. -/
def Resource.ofPerm : Perm → Resource
  | Perm.perm_r => Resource.perm_r
  | Perm.perm_c => Resource.perm_c

/-- The event leaves a non-null pointer to a new native block in resource `r`. -/
def allocates (r : Resource) : Event → Bool
  | Event.intMalloc t (MallocOutcome.returned p) => p.isSome && decide (Resource.ofPerm t = r)
  | Event.NCFormat_from_spMatrix h _ st => st.isSome && decide (Resource.ofHandle h = r)
  | Event.NRFormat_from_spMatrix h _ st => st.isSome && decide (Resource.ofHandle h = r)
  | Event.DenseSuper_from_Numeric h _ _ st => st.isSome && decide (Resource.ofHandle h = r)
  | Event.StatInit (StatInitOutcome.returned ops) => ops.isSome && decide (r = Resource.stat)
  | Event.StatInit (StatInitOutcome.jumped ops) => ops.isSome && decide (r = Resource.stat)
  | Event.gssv _ (GssvOutcome.returned l u _) =>
    (l.isSome && decide (r = Resource.L)) || (u.isSome && decide (r = Resource.U))
  | Event.gssv _ (GssvOutcome.jumped l u) =>
    (l.isSome && decide (r = Resource.L)) || (u.isSome && decide (r = Resource.U))
  | _ => false

/-- The event is a call of a releasing routine on resource `r`, whatever the pointer. -/
def releaseCall (r : Resource) : Event → Bool
  | Event.SUPERLU_FREE t _ => decide (Resource.ofPerm t = r)
  | Event.Destroy_SuperMatrix_Store h _ => decide (Resource.ofHandle h = r)
  | Event.Destroy_SuperNode_Matrix h _ => decide (Resource.ofHandle h = r)
  | Event.Destroy_CompCol_Matrix h _ => decide (Resource.ofHandle h = r)
  | Event.Destroy_CompCol_Permuted h _ => decide (Resource.ofHandle h = r)
  | Event.StatFree _ => decide (r = Resource.stat)
  | _ => false

/-- The event releases the native block of resource `r`: a releasing routine is called
on `r` with a non-null pointer. -/
def releases (r : Resource) : Event → Bool
  | Event.SUPERLU_FREE t p => p.isSome && decide (Resource.ofPerm t = r)
  | Event.Destroy_SuperMatrix_Store h st => st.isSome && decide (Resource.ofHandle h = r)
  | Event.Destroy_SuperNode_Matrix h st => st.isSome && decide (Resource.ofHandle h = r)
  | Event.Destroy_CompCol_Matrix h st => st.isSome && decide (Resource.ofHandle h = r)
  | Event.Destroy_CompCol_Permuted h st => st.isSome && decide (Resource.ofHandle h = r)
  | Event.StatFree ops => ops.isSome && decide (r = Resource.stat)
  | _ => false

/-- One step of following resource `r` through a trace.  The state is whether `r` is
allocated; `none` records a misuse: a second allocation over a live block, or a release
of a block that is not live. -/
def track_step (r : Resource) : Option Bool → Event → Option Bool
  | none, _ => none
  | some live, e =>
    if allocates r e then (if live then none else some true)
    else if releases r e then (if live then some false else none)
    else some live

/-- Follows resource `r` through a whole trace, starting unallocated. -/
def track (r : Resource) (tr : List Event) : Option Bool :=
  tr.foldl (track_step r) (some false)

/-- The event is a buffer-freeing destroy (`Destroy_SuperNode_Matrix`,
`Destroy_CompCol_Matrix`, `Destroy_CompCol_Permuted`) applied to handle `h`. -/
def bufferFreeing (h : Handle) : Event → Bool
  | Event.Destroy_SuperNode_Matrix k _ => decide (k = h)
  | Event.Destroy_CompCol_Matrix k _ => decide (k = h)
  | Event.Destroy_CompCol_Permuted k _ => decide (k = h)
  | _ => false

/-- The event constructs a matrix view. -/
def viewConstruction : Event → Bool
  | Event.NCFormat_from_spMatrix _ _ _ => true
  | Event.NRFormat_from_spMatrix _ _ _ => true
  | Event.DenseSuper_from_Numeric _ _ _ _ => true
  | _ => false

/-- The event is a call into the native solver layer: matrix-view creation, `intMalloc`,
`StatInit`, `gssv`, factor-object construction, or a native destroy or free. -/
def nativeCall : Event → Bool
  | Event.NCFormat_from_spMatrix _ _ _ => true
  | Event.NRFormat_from_spMatrix _ _ _ => true
  | Event.DenseSuper_from_Numeric _ _ _ _ => true
  | Event.intMalloc _ _ => true
  | Event.StatInit _ => true
  | Event.gssv _ _ => true
  | Event.SUPERLU_FREE _ _ => true
  | Event.Destroy_SuperMatrix_Store _ _ => true
  | Event.Destroy_SuperNode_Matrix _ _ => true
  | Event.Destroy_CompCol_Matrix _ _ => true
  | Event.Destroy_CompCol_Permuted _ _ => true
  | Event.StatFree _ => true
  | Event.newSuperLUObject _ => true
  | _ => false

/-- The event is the `setjmp` on the module's jump buffer. -/
def isSetjmp : Event → Bool
  | Event.setjmp => true
  | _ => false

/-- The events of a trace that come before its first `setjmp` (all of them when there
is none). -/
def beforeSetjmp (tr : List Event) : List Event :=
  tr.takeWhile (fun e => !isSetjmp e)

/-- The events of a trace from its first `setjmp` on (none when there is no `setjmp`). -/
def afterSetjmp (tr : List Event) : List Event :=
  tr.dropWhile (fun e => !isSetjmp e)

/-- The options mapping has a key that is not in the table of recognised names. -/
def hasUnrecognized (h : Host) (d : Dict) : Bool :=
  d.any (fun kv => !h.recognized kv.1)

/-! ## Definitions used in the statements and proofs -/

/-- Whether the frame holds a non-null pointer for resource `r`. -/
def Frame.holds (f : Frame) : Resource → Bool
  | Resource.perm_r => f.perm_r.isSome
  | Resource.perm_c => f.perm_c.isSome
  | Resource.A => f.A.Store.isSome
  | Resource.B => f.B.Store.isSome
  | Resource.L => f.L.Store.isSome
  | Resource.U => f.U.Store.isSome
  | Resource.stat => f.stat.ops.isSome

/-- The events that `Py_gssv` can produce before the recovery point, when the copy of the
right-hand side lives at address `n`. -/
def earlyEvent (n : Nat) : Event → Bool
  | Event.PyErr_SetString _ _ => true
  | Event.set_superlu_options_from_dict => true
  | Event.PyArray_FROMANY _ res => decide (res = none ∨ res = some n)
  | Event.Py_DECREF d => decide (d = n)
  | Event.NCFormat_from_spMatrix h _ _ => decide (h = Handle.A)
  | Event.NRFormat_from_spMatrix h _ _ => decide (h = Handle.A)
  | Event.DenseSuper_from_Numeric h d _ st =>
    decide (h = Handle.B) && decide (d = n) && decide (∀ s ∈ st, s.nzval = n)
  | Event.Destroy_SuperMatrix_Store h _ => decide (h = Handle.A)
  | _ => false

/-- The state in which `Py_gssv` reaches the recovery point. -/
structure Frame.Initial (mem : Memory) (a : GssvArgs) (f : Frame) : Prop where
  h_perm_r : f.perm_r = none
  h_perm_c : f.perm_c = none
  h_L : f.L.Store = none
  h_U : f.U.Store = none
  h_stat : f.stat.ops = none
  h_early : f.trace.all (earlyEvent mem.length) = true
  h_calls : ∀ r, f.trace.countP (releaseCall r) = 0
  h_track : ∀ r, track r f.trace = some (f.holds r)
  h_mem : ∃ c, f.mem = mem ++ [c]
  h_data : f.Py_X.data = mem.length
  h_view : ∀ st, f.B.Store = some st → st.nzval = mem.length
  h_copy : Event.PyArray_FROMANY a.Py_B (some mem.length) ∈ f.trace

/-- The state in which `Py_gssv` returns without having reached the recovery point. -/
structure Run.Early (mem : Memory) (call : Option GssvArgs) (run : Run) : Prop where
  h_failed : ∃ e, run.result = Except.error e
  h_early : run.trace.all (earlyEvent mem.length) = true
  h_mem : run.mem = mem ∨ ∃ c, run.mem = mem ++ [c]
  h_copy : ∀ hd d s st, Event.DenseSuper_from_Numeric hd d s st ∈ run.trace →
    ∃ a, call = some a ∧ Event.PyArray_FROMANY a.Py_B (some mem.length) ∈ run.trace

/-- The events that `Py_gssv` can produce after the `setjmp`, when the dense view holds the
`Store` pointer `B`. -/
def lateEvent (B : Option Store) : Event → Bool
  | Event.longjmp => true
  | Event.SLU_END_THREADS => true
  | Event.intMalloc _ _ => true
  | Event.StatInit _ => true
  | Event.gssv B1 _ => decide (B1 = B)
  | Event.SUPERLU_FREE _ _ => true
  | Event.Destroy_SuperMatrix_Store h _ => decide (h = Handle.A ∨ h = Handle.B)
  | Event.Destroy_SuperNode_Matrix h _ => decide (h = Handle.L)
  | Event.Destroy_CompCol_Matrix h _ => decide (h = Handle.U)
  | Event.StatFree _ => true
  | Event.Py_XDECREF _ => true
  | Event.Py_BuildValue => true
  | _ => false

/-- The calls made from the `fail` label on. -/
def failEvents (f : Frame) : List Event :=
  [Event.SUPERLU_FREE Perm.perm_r f.perm_r, Event.SUPERLU_FREE Perm.perm_c f.perm_c,
   Event.Destroy_SuperMatrix_Store Handle.A f.A.Store,
   Event.Destroy_SuperMatrix_Store Handle.B f.B.Store] ++
  ((if f.L.Store.isSome then [Event.Destroy_SuperNode_Matrix Handle.L f.L.Store] else []) ++
  ((if f.U.Store.isSome then [Event.Destroy_CompCol_Matrix Handle.U f.U.Store] else []) ++
  ((if f.stat.ops.isSome then [Event.StatFree f.stat.ops] else []) ++
  [Event.Py_XDECREF (some f.Py_X.data)])))

/-- The calls made on the normal exit. -/
def doneEvents (f : Frame) : List Event :=
  [Event.SUPERLU_FREE Perm.perm_r f.perm_r, Event.SUPERLU_FREE Perm.perm_c f.perm_c,
   Event.Destroy_SuperMatrix_Store Handle.A f.A.Store,
   Event.Destroy_SuperMatrix_Store Handle.B f.B.Store,
   Event.Destroy_SuperNode_Matrix Handle.L f.L.Store,
   Event.Destroy_CompCol_Matrix Handle.U f.U.Store,
   Event.StatFree f.stat.ops,
   Event.Py_BuildValue]

/-- The options mapping of a call, when it has one. -/
def Call.option_dict : Call → Option Dict
  | Call.gssv (some a) => a.option_dict
  | Call.gstrf (some a) => a.option_dict
  | _ => none

/-- The call fails one of the type checks at the head of its entry point: an index array
is not of the C-int kind, or the value array is not of a kind supported by SuperLU. -/
def Call.badTypes (h : Host) : Call → Bool
  | Call.gssv (some a) =>
    !h._CHECK_INTEGER a.colind || !h._CHECK_INTEGER a.rowptr ||
      !h.CHECK_SLU_TYPE a.nzvals.typenum
  | Call.gstrf (some a) =>
    !h._CHECK_INTEGER a.colptr || !h._CHECK_INTEGER a.rowind ||
      !h.CHECK_SLU_TYPE a.nzvals.typenum
  | _ => false

/-- The event is the translation of the options mapping. -/
def isOptions : Event → Bool
  | Event.set_superlu_options_from_dict => true
  | _ => false

/-- The event is a `Py_DECREF`. -/
def isDecref : Event → Bool
  | Event.Py_DECREF _ => true
  | _ => false

/-- The event is the descriptor-only destroy `Destroy_SuperMatrix_Store`. -/
def descriptorOnly : Event → Bool
  | Event.Destroy_SuperMatrix_Store _ _ => true
  | _ => false

/-- The native calls that `Py_gssv` makes only under the recovery point: the allocation
of the permutation vectors, `StatInit`, `gssv`, and the release of the permutation
vectors, of the dense view `B`, of the factors and of the statistics. -/
def underRecovery : Event → Bool
  | Event.intMalloc _ _ => true
  | Event.StatInit _ => true
  | Event.gssv _ _ => true
  | Event.SUPERLU_FREE _ _ => true
  | Event.Destroy_SuperMatrix_Store h _ => decide (h = Handle.B)
  | Event.Destroy_SuperNode_Matrix _ _ => true
  | Event.Destroy_CompCol_Matrix _ _ => true
  | Event.Destroy_CompCol_Permuted _ _ => true
  | Event.StatFree _ => true
  | _ => false

/-- The event respects the borrowed views: it is no buffer-freeing destroy applied to `A` or
`B`, and if it is a releasing call on `A` or `B` it is the descriptor-only destroy. -/
def viewSafe (e : Event) : Bool :=
  !bufferFreeing Handle.A e && !bufferFreeing Handle.B e &&
    (!(releaseCall Resource.A e || releaseCall Resource.B e) || descriptorOnly e)

/-! ## Example inputs -/

/-- An example host: index arrays have type number 5, value arrays one of 11, 12, 14, 15,
and four option names are recognised. -/
def exampleHost : Host :=
  { _CHECK_INTEGER := fun a => a.typenum == 5,
    CHECK_SLU_TYPE := fun t => t == 11 || t == 12 || t == 14 || t == 15,
    recognized := fun k =>
      k == "Equilibrate" || k == "SymmetricMode" || k == "PanelSize" || k == "Relax",
    defaults := fun _ => [],
    convert := fun _ d => some d }

/-- An example oracle: every external routine succeeds and `gssv` returns `info = 0`; were
there a `longjmp`, `perm_c` and `perm_r` would be read back with their values at the
`setjmp`. -/
def exampleOracle : Oracle :=
  { fromany := some ([2], [5, 7]),
    conforming := true,
    NCFormat := { status := 0, store := some 100 },
    NRFormat := { status := 0, store := some 101 },
    DenseSuper := { status := 0, store := some 102 },
    intMalloc_c := MallocOutcome.returned (some 200),
    intMalloc_r := MallocOutcome.returned (some 201),
    StatInit := StatInitOutcome.returned (some 300),
    gssv := GssvOutcome.returned (some { addr := 400, nzval := 401 })
              (some { addr := 500, nzval := 501 }) 0,
    solution := [1, 2],
    factor := some 600,
    longjmp_keeps_perm_c := false,
    longjmp_keeps_perm_r := false }

/-- An example host memory: the right-hand side at address 0, then the value array and
the two index arrays of a 2 x 2 diagonal matrix. -/
def exampleMemory : Memory := [[5, 7], [1, 1], [0, 1], [0, 1, 2]]

/-- A well-formed `gssv` call on the example memory, in compressed-column form. -/
def exampleGssv : GssvArgs :=
  { N := 2, nnz := 2,
    nzvals := { data := 1, typenum := 12, dimensions := [2] },
    colind := { data := 2, typenum := 5, dimensions := [2] },
    rowptr := { data := 3, typenum := 5, dimensions := [3] },
    Py_B := 0, csc := 1, option_dict := none }

/-- A well-formed `gstrf` call on the example memory. -/
def exampleGstrf : GstrfArgs :=
  { N := 2, nnz := 2,
    nzvals := { data := 1, typenum := 12, dimensions := [2] },
    rowind := { data := 2, typenum := 5, dimensions := [2] },
    colptr := { data := 3, typenum := 5, dimensions := [3] },
    option_dict := none, ilu := 0 }

/-- An options mapping with a key that the example host does not recognise. -/
def exampleUnknownKey : Dict := [("NotARealOption", 1)]

/-- The example `gssv` call with the unrecognized option key. -/
def exampleGssvUnknownKey : GssvArgs :=
  { exampleGssv with option_dict := some exampleUnknownKey }

/-- The example `gstrf` call with the unrecognized option key. -/
def exampleGstrfUnknownKey : GstrfArgs :=
  { exampleGstrf with option_dict := some exampleUnknownKey }

/-- The example `gssv` call with a column-index array of type number 7 (a wider integer
kind than C int). -/
def exampleGssvWideIndex : GssvArgs :=
  { exampleGssv with colind := { data := 2, typenum := 7, dimensions := [2] } }

/-- The example `gssv` call with `N = 3`, while the right-hand side has 2 rows. -/
def exampleGssvWrongShape : GssvArgs :=
  { exampleGssv with N := 3 }

/-- The example oracle, except that `gssv` ends in `longjmp` after it has set up `L` but
not `U`.  Both `intMalloc` calls have returned by then, and `perm_c` and `perm_r` are read
back at `fail` with their values at the `setjmp`, which are NULL. -/
def exampleAbortOracle : Oracle :=
  { exampleOracle with
    gssv := GssvOutcome.jumped (some { addr := 400, nzval := 401 }) none }

/-- The example oracle, except that `gssv` returns the diagnostic code 2 (a singular
pivot). -/
def exampleSingularOracle : Oracle :=
  { exampleOracle with
    gssv := GssvOutcome.returned (some { addr := 400, nzval := 401 })
              (some { addr := 500, nzval := 501 }) 2 }

/-- A handle whose `Store` is NULL. -/
def exampleNullHandle : SuperMatrix := { nrow := 3, ncol := 3, Store := none }

/-- A statistics record whose `ops` is NULL. -/
def exampleNullStat : SuperLUStat_t := { ops := none }

/-! ## Lemmas -/

theorem track_append (r : Resource) (xs ys : List Event) :
    track r (xs ++ ys) = ys.foldl (track_step r) (track r xs) := by
  simp [track, List.foldl_append]

theorem track_step_free (r : Resource) (b : Bool) (e : Event)
    (ha : allocates r e = false) (hr : releases r e = b) :
    track_step r (some b) e = some false := by
  cases b <;> simp [track_step, ha, hr]

theorem track_step_alloc (r : Resource) (e : Event) (hr : releases r e = false) :
    track_step r (some false) e = some (allocates r e) := by
  cases ha : allocates r e <;> simp [track_step, ha, hr]

theorem track_step_idle (r : Resource) (s : Option Bool) (e : Event)
    (ha : allocates r e = false) (hr : releases r e = false) : track_step r s e = s := by
  cases s with
  | none => rfl
  | some b => simp [track_step, ha, hr]

theorem track_XDestroy_SuperMatrix_Store (r : Resource) (h : Handle) (A : SuperMatrix)
    (tr : List Event) :
    track r (XDestroy_SuperMatrix_Store h A tr).2 =
      track_step r (track r tr) (Event.Destroy_SuperMatrix_Store h A.Store) := by
  simp [XDestroy_SuperMatrix_Store, Destroy_SuperMatrix_Store, track_append]

theorem track_XDestroy_SuperNode_Matrix (r : Resource) (h : Handle) (A : SuperMatrix)
    (tr : List Event) :
    track r (XDestroy_SuperNode_Matrix h A tr).2 =
      track_step r (track r tr) (Event.Destroy_SuperNode_Matrix h A.Store) := by
  cases hS : A.Store with
  | none =>
    rw [track_step_idle r _ _ (by simp [allocates]) (by simp [releases])]
    simp [XDestroy_SuperNode_Matrix, hS]
  | some st => simp [XDestroy_SuperNode_Matrix, Destroy_SuperNode_Matrix, hS, track_append]

theorem track_XDestroy_CompCol_Matrix (r : Resource) (h : Handle) (A : SuperMatrix)
    (tr : List Event) :
    track r (XDestroy_CompCol_Matrix h A tr).2 =
      track_step r (track r tr) (Event.Destroy_CompCol_Matrix h A.Store) := by
  cases hS : A.Store with
  | none =>
    rw [track_step_idle r _ _ (by simp [allocates]) (by simp [releases])]
    simp [XDestroy_CompCol_Matrix, hS]
  | some st => simp [XDestroy_CompCol_Matrix, Destroy_CompCol_Matrix, hS, track_append]

theorem track_XStatFree (r : Resource) (stat : SuperLUStat_t) (tr : List Event) :
    track r (XStatFree stat tr).2 = track_step r (track r tr) (Event.StatFree stat.ops) := by
  cases hS : stat.ops with
  | none =>
    rw [track_step_idle r _ _ (by simp [allocates]) (by simp [releases])]
    simp [XStatFree, hS]
  | some st => simp [XStatFree, StatFree, hS, track_append]

theorem gssv_fail_track (f : Frame) (r : Resource)
    (ht : track r f.trace = some (f.holds r)) :
    track r (gssv_fail f).trace = some false := by
  unfold gssv_fail
  simp only [track_append, track_XStatFree, track_XDestroy_CompCol_Matrix,
    track_XDestroy_SuperNode_Matrix, track_XDestroy_SuperMatrix_Store, ht, List.foldl_cons,
    List.foldl_nil]
  cases r <;>
  simp [Frame.holds, track_step_free, track_step_idle, allocates, releases, Resource.ofHandle,
    Resource.ofPerm]

theorem gssv_done_track (f : Frame) (info : Int) (r : Resource)
    (ht : track r f.trace = some (f.holds r)) :
    track r (gssv_done f info).trace = some false := by
  unfold gssv_done
  simp only [track_append, Destroy_SuperMatrix_Store, Destroy_SuperNode_Matrix,
    Destroy_CompCol_Matrix, StatFree, ht, List.foldl_cons, List.foldl_nil]
  cases r <;>
  simp [Frame.holds, track_step_free, track_step_idle, allocates, releases, Resource.ofHandle,
    Resource.ofPerm]

theorem gssv_protected_track (o : Oracle) (f : Frame) (r : Resource)
    (hr : f.perm_r = none) (hc : f.perm_c = none) (hL : f.L.Store = none)
    (hU : f.U.Store = none) (hs : f.stat.ops = none)
    (hkc : r = Resource.perm_c → o.longjmp_keeps_perm_c = true)
    (hkr : r = Resource.perm_r → o.longjmp_keeps_perm_r = true)
    (ht : track r f.trace = some (f.holds r)) :
    track r (gssv_protected o f).trace = some false := by
  unfold gssv_protected
  split
  · apply gssv_fail_track
    cases r <;>
    simp_all [Frame.holds, track_append, track_step_alloc, track_step_idle, allocates, releases,
      Resource.ofHandle, Resource.ofPerm, after_longjmp]
  · split
    · apply gssv_fail_track
      cases r <;>
      simp_all [Frame.holds, track_append, track_step_alloc, track_step_idle, allocates,
        releases, Resource.ofHandle, Resource.ofPerm, after_longjmp]
    · split
      · apply gssv_fail_track
        cases r <;>
        simp_all [Frame.holds, track_append, track_step_alloc, track_step_idle, allocates,
          releases, Resource.ofHandle, Resource.ofPerm, after_longjmp]
      · split
        · apply gssv_fail_track
          cases r <;>
          simp_all [Frame.holds, track_append, track_step_alloc, track_step_idle, allocates,
            releases, Resource.ofHandle, Resource.ofPerm, after_longjmp]
        · apply gssv_done_track
          cases r <;>
          simp_all [Frame.holds, track_append, track_step_alloc, track_step_idle, allocates,
            releases, Resource.ofHandle, Resource.ofPerm]

theorem Py_gssv_paths (h : Host) (o : Oracle) (mem : Memory) (call : Option GssvArgs) :
    Run.Early mem call (Py_gssv h o mem call) ∨
    ∃ a f, call = some a ∧ Py_gssv h o mem call = gssv_protected o f ∧ Frame.Initial mem a f := by
  cases call with
  | none => left; constructor <;> simp [Py_gssv]
  | some a =>
    cases h1 : h._CHECK_INTEGER a.colind
    · left; constructor <;> simp [Py_gssv, h1, earlyEvent]
    cases h2 : h._CHECK_INTEGER a.rowptr
    · left; constructor <;> simp [Py_gssv, h1, h2, earlyEvent]
    cases h3 : h.CHECK_SLU_TYPE a.nzvals.typenum
    · left; constructor <;> simp [Py_gssv, h1, h2, h3, earlyEvent]
    cases h4 : set_superlu_options_from_dict h 0 a.option_dict
    · left; constructor <;> simp [Py_gssv, h1, h2, h3, h4, earlyEvent]
    cases h5 : o.fromany with
    | none =>
      left; constructor <;> simp [Py_gssv, h1, h2, h3, h4, h5, earlyEvent, PyArray_FROMANY]
    | some dc =>
      obtain ⟨dims, content⟩ := dc
      by_cases h6 : dims.getD 0 0 = a.N
      swap
      · left
        constructor <;>
        simp [Py_gssv, h1, h2, h3, h4, h5, h6, earlyEvent, PyArray_FROMANY,
          -List.getD_eq_getElem?_getD]
      by_cases h7 : a.csc = 0
      · by_cases h8 : o.NRFormat.status = 0
        swap
        · left
          constructor <;>
          simp [Py_gssv, h1, h2, h3, h4, h5, h6, h7, h8, earlyEvent, PyArray_FROMANY,
            NRFormat_from_spMatrix, -List.getD_eq_getElem?_getD]
        by_cases h9 : o.DenseSuper.status = 0
        swap
        · left
          constructor <;>
          simp [Py_gssv, h1, h2, h3, h4, h5, h6, h7, h8, h9, earlyEvent, PyArray_FROMANY,
            NRFormat_from_spMatrix, DenseSuper_from_Numeric, Destroy_SuperMatrix_Store,
            -List.getD_eq_getElem?_getD]
        right
        generalize hrun : Py_gssv h o mem (some a) = run
        simp [Py_gssv, h1, h2, h3, h4, h5, h6, h7, h8, h9, PyArray_FROMANY,
            NRFormat_from_spMatrix, DenseSuper_from_Numeric,
            -List.getD_eq_getElem?_getD] at hrun
        subst hrun
        refine ⟨a, _, rfl, rfl, ?_⟩
        constructor <;> try (simp [earlyEvent, releaseCall]; done)
        · intro r
          cases r <;> cases o.NRFormat.store <;> cases o.DenseSuper.store <;>
          simp [Frame.holds, track, track_step, allocates, releases, Resource.ofHandle]
      · by_cases h8 : o.NCFormat.status = 0
        swap
        · left
          constructor <;>
          simp [Py_gssv, h1, h2, h3, h4, h5, h6, h7, h8, earlyEvent, PyArray_FROMANY,
            NCFormat_from_spMatrix, -List.getD_eq_getElem?_getD]
        by_cases h9 : o.DenseSuper.status = 0
        swap
        · left
          constructor <;>
          simp [Py_gssv, h1, h2, h3, h4, h5, h6, h7, h8, h9, earlyEvent, PyArray_FROMANY,
            NCFormat_from_spMatrix, DenseSuper_from_Numeric, Destroy_SuperMatrix_Store,
            -List.getD_eq_getElem?_getD]
        right
        generalize hrun : Py_gssv h o mem (some a) = run
        simp [Py_gssv, h1, h2, h3, h4, h5, h6, h7, h8, h9, PyArray_FROMANY,
            NCFormat_from_spMatrix, DenseSuper_from_Numeric,
            -List.getD_eq_getElem?_getD] at hrun
        subst hrun
        refine ⟨a, _, rfl, rfl, ?_⟩
        constructor <;> try (simp [earlyEvent, releaseCall]; done)
        · intro r
          cases r <;> cases o.NCFormat.store <;> cases o.DenseSuper.store <;>
          simp [Frame.holds, track, track_step, allocates, releases, Resource.ofHandle]

theorem XDestroy_SuperMatrix_Store_trace (h : Handle) (A : SuperMatrix) (tr : List Event) :
    (XDestroy_SuperMatrix_Store h A tr).2 = tr ++ [Event.Destroy_SuperMatrix_Store h A.Store] :=
  rfl

theorem XDestroy_SuperNode_Matrix_trace (h : Handle) (A : SuperMatrix) (tr : List Event) :
    (XDestroy_SuperNode_Matrix h A tr).2 =
      tr ++ (if A.Store.isSome then [Event.Destroy_SuperNode_Matrix h A.Store] else []) := by
  cases hS : A.Store <;> simp [XDestroy_SuperNode_Matrix, Destroy_SuperNode_Matrix, hS]

theorem XDestroy_CompCol_Matrix_trace (h : Handle) (A : SuperMatrix) (tr : List Event) :
    (XDestroy_CompCol_Matrix h A tr).2 =
      tr ++ (if A.Store.isSome then [Event.Destroy_CompCol_Matrix h A.Store] else []) := by
  cases hS : A.Store <;> simp [XDestroy_CompCol_Matrix, Destroy_CompCol_Matrix, hS]

theorem XStatFree_trace (stat : SuperLUStat_t) (tr : List Event) :
    (XStatFree stat tr).2 = tr ++ (if stat.ops.isSome then [Event.StatFree stat.ops] else []) := by
  cases hS : stat.ops <;> simp [XStatFree, StatFree, hS]

theorem gssv_fail_trace (f : Frame) : (gssv_fail f).trace = f.trace ++ failEvents f := by
  simp only [gssv_fail, failEvents, XDestroy_SuperMatrix_Store_trace,
    XDestroy_SuperNode_Matrix_trace, XDestroy_CompCol_Matrix_trace, XStatFree_trace,
    List.append_assoc, List.cons_append, List.nil_append]

theorem gssv_done_trace (f : Frame) (info : Int) :
    (gssv_done f info).trace = f.trace ++ doneEvents f := by
  simp only [gssv_done, doneEvents, Destroy_SuperMatrix_Store, Destroy_SuperNode_Matrix,
    Destroy_CompCol_Matrix, StatFree, List.append_assoc, List.cons_append, List.nil_append]

theorem failEvents_late (f : Frame) (B : Option Store) :
    (failEvents f).all (lateEvent B) = true := by
  unfold failEvents
  cases f.L.Store <;> cases f.U.Store <;> cases f.stat.ops <;> simp [lateEvent]

theorem failEvents_no_gssv (f : Frame) (C : Option Store) (out : GssvOutcome) :
    Event.gssv C out ∉ failEvents f := by
  unfold failEvents
  cases f.L.Store <;> cases f.U.Store <;> cases f.stat.ops <;> simp

theorem doneEvents_late (f : Frame) (B : Option Store) :
    (doneEvents f).all (lateEvent B) = true := by
  simp [doneEvents, lateEvent]

theorem doneEvents_no_gssv (f : Frame) (C : Option Store) (out : GssvOutcome) :
    Event.gssv C out ∉ doneEvents f := by
  simp [doneEvents]

theorem gssv_protected_trace (o : Oracle) (f : Frame) :
    ∃ rest, (gssv_protected o f).trace =
        f.trace ++ Event.superlu_python_jmpbuf :: Event.SLU_BEGIN_THREADS :: Event.setjmp :: rest ∧
      rest.all (lateEvent f.B.Store) = true := by
  unfold gssv_protected
  split
  · refine ⟨_, by rw [gssv_fail_trace]; simp only [List.append_assoc, List.cons_append,
      List.nil_append]; rfl, ?_⟩
    simp [-List.all_eq_true, lateEvent]
    exact failEvents_late _ _
  · split
    · refine ⟨_, by rw [gssv_fail_trace]; simp only [List.append_assoc, List.cons_append,
        List.nil_append]; rfl, ?_⟩
      simp [-List.all_eq_true, lateEvent]
      exact failEvents_late _ _
    · split
      · refine ⟨_, by rw [gssv_fail_trace]; simp only [List.append_assoc, List.cons_append,
          List.nil_append]; rfl, ?_⟩
        simp [-List.all_eq_true, lateEvent]
        exact failEvents_late _ _
      · split
        · refine ⟨_, by rw [gssv_fail_trace]; simp only [List.append_assoc, List.cons_append,
            List.nil_append]; rfl, ?_⟩
          simp [-List.all_eq_true, lateEvent]
          exact failEvents_late _ _
        · refine ⟨_, by rw [gssv_done_trace]; simp only [List.append_assoc, List.cons_append,
            List.nil_append]; rfl, ?_⟩
          simp [-List.all_eq_true, lateEvent]
          exact doneEvents_late _ _

theorem gssv_protected_result (o : Oracle) (f : Frame) (B : Option Store) (l u : Option Store)
    (info : Int) (hf : ∀ C out, Event.gssv C out ∉ f.trace)
    (hg : Event.gssv B (GssvOutcome.returned l u info) ∈ (gssv_protected o f).trace) :
    (gssv_protected o f).result = Except.ok (PyObject.tuple f.Py_X info) ∧ B = f.B.Store := by
  unfold gssv_protected at hg ⊢
  split at hg
  · exfalso
    rw [gssv_fail_trace] at hg
    simp [hf] at hg
    exact failEvents_no_gssv _ _ _ hg
  · split at hg
    · exfalso
      rw [gssv_fail_trace] at hg
      simp [hf] at hg
      exact failEvents_no_gssv _ _ _ hg
    · split at hg
      · exfalso
        rw [gssv_fail_trace] at hg
        simp [hf] at hg
        exact failEvents_no_gssv _ _ _ hg
      · split at hg
        · exfalso
          rw [gssv_fail_trace] at hg
          simp [hf] at hg
          exact failEvents_no_gssv _ _ _ hg
        · rw [gssv_done_trace] at hg
          simp [hf] at hg
          rcases hg with hg | hg
          · simp_all [gssv_done]
          · exact absurd hg (doneEvents_no_gssv _ _ _)

theorem unrecognized_rejected (h : Host) (ilu : Int) (d : Dict)
    (hu : hasUnrecognized h d = true) : set_superlu_options_from_dict h ilu (some d) = none := by
  have : (d.all fun kv => h.recognized kv.1) = false := by
    rw [Bool.eq_false_iff]
    intro hall
    simp only [hasUnrecognized, List.any_eq_true] at hu
    obtain ⟨kv, hkv, hk⟩ := hu
    have := List.all_eq_true.mp hall kv hkv
    simp [this] at hk
  simp [set_superlu_options_from_dict, this]

theorem Py_gstrf_traces (h : Host) (o : Oracle) (mem : Memory) (call : Option GstrfArgs) :
    (Py_gstrf h o mem call).trace = [] ∨
    (∃ msg, (Py_gstrf h o mem call).trace = [Event.PyErr_SetString Exc.TypeError msg]) ∨
    (∃ s st, (Py_gstrf h o mem call).trace =
      [Event.NCFormat_from_spMatrix Handle.A s st, Event.Destroy_SuperMatrix_Store Handle.A st]) ∨
    (∃ s st, (Py_gstrf h o mem call).trace =
      [Event.NCFormat_from_spMatrix Handle.A s st, Event.newSuperLUObject st,
       Event.set_superlu_options_from_dict, Event.Destroy_SuperMatrix_Store Handle.A st]) := by
  cases call with
  | none => left; rfl
  | some a =>
    cases h1 : h._CHECK_INTEGER a.colptr
    · right; left; exact ⟨_, by simp [Py_gstrf, h1]; rfl⟩
    cases h2 : h._CHECK_INTEGER a.rowind
    · right; left; exact ⟨_, by simp [Py_gstrf, h1, h2]; rfl⟩
    cases h3 : h.CHECK_SLU_TYPE a.nzvals.typenum
    · right; left; exact ⟨_, by simp [Py_gstrf, h1, h2, h3]; rfl⟩
    by_cases h4 : o.NCFormat.status = 0
    swap
    · right; right; left
      exact ⟨_, _, by simp [Py_gstrf, h1, h2, h3, h4, NCFormat_from_spMatrix,
        XDestroy_SuperMatrix_Store, Destroy_SuperMatrix_Store]; exact ⟨rfl, rfl⟩⟩
    right; right; right
    cases h5 : set_superlu_options_from_dict h a.ilu a.option_dict <;> cases h6 : o.factor <;>
    exact ⟨_, _, by simp [Py_gstrf, h1, h2, h3, h4, h5, h6, NCFormat_from_spMatrix,
        newSuperLUObject, XDestroy_SuperMatrix_Store, Destroy_SuperMatrix_Store]; exact ⟨rfl, rfl⟩⟩

theorem gssv_fail_calls (f : Frame) (r : Resource) :
    (gssv_fail f).trace.countP (releaseCall r) ≤ f.trace.countP (releaseCall r) + 1 := by
  rw [gssv_fail_trace, failEvents]
  cases r <;> cases f.L.Store <;> cases f.U.Store <;> cases f.stat.ops <;>
  simp [List.countP_append, List.countP_cons, releaseCall, Resource.ofHandle, Resource.ofPerm]

theorem gssv_done_calls (f : Frame) (info : Int) (r : Resource) :
    (gssv_done f info).trace.countP (releaseCall r) ≤ f.trace.countP (releaseCall r) + 1 := by
  rw [gssv_done_trace, doneEvents]
  cases r <;>
  simp [List.countP_append, List.countP_cons, releaseCall, Resource.ofHandle, Resource.ofPerm]

theorem gssv_protected_calls (o : Oracle) (f : Frame) (r : Resource)
    (h0 : f.trace.countP (releaseCall r) = 0) :
    (gssv_protected o f).trace.countP (releaseCall r) ≤ 1 := by
  unfold gssv_protected
  split
  · refine le_trans (gssv_fail_calls _ r) ?_
    simp [List.countP_append, List.countP_cons, releaseCall, h0]
  · split
    · refine le_trans (gssv_fail_calls _ r) ?_
      simp [List.countP_append, List.countP_cons, releaseCall, h0]
    · split
      · refine le_trans (gssv_fail_calls _ r) ?_
        simp [List.countP_append, List.countP_cons, releaseCall, h0]
      · split
        · refine le_trans (gssv_fail_calls _ r) ?_
          simp [List.countP_append, List.countP_cons, releaseCall, h0]
        · refine le_trans (gssv_done_calls _ _ r) ?_
          simp [List.countP_append, List.countP_cons, releaseCall, h0]

theorem earlyEvent_facts (n : Nat) (e : Event) (he : earlyEvent n e = true) :
    viewSafe e = true ∧ isSetjmp e = false ∧ underRecovery e = false := by
  cases e <;> simp_all [earlyEvent, viewSafe, bufferFreeing, releaseCall, descriptorOnly,
    isSetjmp, underRecovery, Resource.ofHandle, Resource.ofPerm]

theorem lateEvent_facts (B : Option Store) (e : Event) (he : lateEvent B e = true) :
    viewSafe e = true ∧ isSetjmp e = false ∧ viewConstruction e = false := by
  cases e with
  | SUPERLU_FREE t p =>
    cases t <;> simp [viewSafe, bufferFreeing, releaseCall, descriptorOnly, isSetjmp,
      viewConstruction, Resource.ofPerm]
  | _ =>
    simp_all [lateEvent, viewSafe, bufferFreeing, releaseCall, descriptorOnly, isSetjmp,
      viewConstruction, Resource.ofHandle]

theorem countP_isSetjmp_early (n : Nat) (tr : List Event)
    (h : tr.all (earlyEvent n) = true) : tr.countP isSetjmp = 0 := by
  rw [List.countP_eq_zero]
  intro e he
  simp [(earlyEvent_facts n e (List.all_eq_true.mp h e he)).2.1]

theorem countP_isSetjmp_late (B : Option Store) (tr : List Event)
    (h : tr.all (lateEvent B) = true) : tr.countP isSetjmp = 0 := by
  rw [List.countP_eq_zero]
  intro e he
  simp [(lateEvent_facts B e (List.all_eq_true.mp h e he)).2.1]

theorem beforeSetjmp_early (n : Nat) (tr : List Event)
    (h : tr.all (earlyEvent n) = true) : beforeSetjmp tr = tr := by
  unfold beforeSetjmp
  rw [List.takeWhile_eq_self_iff]
  intro e he
  simp [(earlyEvent_facts n e (List.all_eq_true.mp h e he)).2.1]

theorem afterSetjmp_early (n : Nat) (tr : List Event)
    (h : tr.all (earlyEvent n) = true) : afterSetjmp tr = [] := by
  unfold afterSetjmp
  rw [List.dropWhile_eq_nil_iff]
  intro e he
  simp [(earlyEvent_facts n e (List.all_eq_true.mp h e he)).2.1]

theorem underRecovery_early (n : Nat) (tr : List Event)
    (h : tr.all (earlyEvent n) = true) : tr.any underRecovery = false := by
  rw [Bool.eq_false_iff]
  intro hany
  obtain ⟨e, he, hu⟩ := List.any_eq_true.mp hany
  rw [(earlyEvent_facts n e (List.all_eq_true.mp h e he)).2.2] at hu
  cases hu

theorem allocates_not_releases (r : Resource) (e : Event) (h : allocates r e = true) :
    releases r e = false := by
  cases e <;> simp_all [allocates, releases]

theorem track_counts (r : Resource) (tr : List Event) :
    ∀ b b1 : Bool, tr.foldl (track_step r) (some b) = some b1 →
      tr.countP (allocates r) + (if b then 1 else 0) =
        tr.countP (releases r) + (if b1 then 1 else 0) := by
  induction tr with
  | nil =>
    intro b b1 h
    simp only [List.foldl_nil, Option.some.injEq] at h
    simp [h]
  | cons e tr ih =>
    intro b b1 h
    rw [List.foldl_cons] at h
    cases ha : allocates r e
    · cases hr : releases r e
      · rw [track_step_idle r _ e ha hr] at h
        have := ih b b1 h
        simp [List.countP_cons, ha, hr, this]
      · cases b
        · have hnone : track_step r (some false) e = none := by simp [track_step, ha, hr]
          rw [hnone] at h
          have : tr.foldl (track_step r) none = none := by
            clear ih h
            induction tr with
            | nil => rfl
            | cons x xs ihx => simpa [List.foldl_cons, track_step] using ihx
          rw [this] at h
          cases h
        · rw [track_step_free r true e ha hr] at h
          have := ih false b1 h
          simp [List.countP_cons, ha, hr] at this ⊢
          omega
    · have hr := allocates_not_releases r e ha
      cases b
      · have hstep : track_step r (some false) e = some true := by simp [track_step, ha]
        rw [hstep] at h
        have := ih true b1 h
        simp [List.countP_cons, ha, hr] at this ⊢
        omega
      · have hnone : track_step r (some true) e = none := by simp [track_step, ha]
        rw [hnone] at h
        have : tr.foldl (track_step r) none = none := by
          clear ih h
          induction tr with
          | nil => rfl
          | cons x xs ihx => simpa [List.foldl_cons, track_step] using ihx
        rw [this] at h
        cases h

theorem track_balanced (r : Resource) (tr : List Event) (h : track r tr = some false) :
    tr.countP (releases r) = tr.countP (allocates r) := by
  have := track_counts r tr false false h
  simpa using this.symm

theorem Py_gssv_track (h : Host) (o : Oracle) (mem : Memory)
    (call : Option GssvArgs) (r : Resource)
    (hkc : r = Resource.perm_c → o.longjmp_keeps_perm_c = true)
    (hkr : r = Resource.perm_r → o.longjmp_keeps_perm_r = true)
    (hs : Event.setjmp ∈ (Py_gssv h o mem call).trace) :
    track r (Py_gssv h o mem call).trace = some false ∧
    (Py_gssv h o mem call).trace.countP (releases r) =
      (Py_gssv h o mem call).trace.countP (allocates r) := by
  rcases Py_gssv_paths h o mem call with he | ⟨a, f, _, hrun, hf⟩
  · exfalso
    have := List.all_eq_true.mp he.h_early _ hs
    simp [earlyEvent] at this
  · rw [hrun]
    have ht := gssv_protected_track o f r hf.h_perm_r hf.h_perm_c hf.h_L hf.h_U hf.h_stat
      hkc hkr (hf.h_track r)
    exact ⟨ht, track_balanced r _ ht⟩

theorem Py_gstrf_viewSafe (h : Host) (o : Oracle) (mem : Memory) (call : Option GstrfArgs) :
    (Py_gstrf h o mem call).trace.all viewSafe = true := by
  rcases Py_gstrf_traces h o mem call with ht | ⟨msg, ht⟩ | ⟨s, st, ht⟩ | ⟨s, st, ht⟩ <;>
  rw [ht] <;>
  simp [viewSafe, bufferFreeing, releaseCall, descriptorOnly, Resource.ofHandle]

/-! ## The claims -/

/-- C1 (counterexample): a `Py_gstrf` call whose options mapping has the unrecognized key
`NotARealOption` passes the type checks, constructs the matrix view with
`NCFormat_from_spMatrix`, and only then has its options rejected inside
`newSuperLUObject`. -/
theorem Py_gstrf_builds_view_before_rejecting_options :
    hasUnrecognized exampleHost exampleUnknownKey = true ∧
    (Py_gstrf exampleHost exampleOracle exampleMemory
        (some exampleGstrfUnknownKey)).result
      = Except.error Failure.newSuperLUObject ∧
    (Py_gstrf exampleHost exampleOracle exampleMemory
        (some exampleGstrfUnknownKey)).trace
      = [Event.NCFormat_from_spMatrix Handle.A 0 (some { addr := 100, nzval := 1 }),
         Event.newSuperLUObject (some { addr := 100, nzval := 1 }),
         Event.set_superlu_options_from_dict,
         Event.Destroy_SuperMatrix_Store Handle.A (some { addr := 100, nzval := 1 })] := by
  refine ⟨by decide, by rfl, by rfl⟩

/-- C1 (amended): a call whose options mapping contains an unrecognized key fails.  In
`Py_gssv` the failure comes before any matrix view is constructed.  In `Py_gstrf` the
options are examined only inside `newSuperLUObject`, after `NCFormat_from_spMatrix` has
constructed the view; a view constructed by then has been released again, through the
descriptor-only destroy, when the call returns. -/
theorem unrecognized_option_fails (h : Host) (o : Oracle) (mem : Memory) (c : Call) (d : Dict)
    (hd : c.option_dict = some d) (hu : hasUnrecognized h d = true) :
    (∃ e, (SuperLU_Methods h o mem c).result = Except.error e) ∧
    (∀ a, c = Call.gssv a →
      (SuperLU_Methods h o mem c).trace.any viewConstruction = false) ∧
    (∀ a, c = Call.gstrf a →
      (SuperLU_Methods h o mem c).trace.all viewSafe = true ∧
      track Resource.A (SuperLU_Methods h o mem c).trace = some false ∧
      (Event.set_superlu_options_from_dict ∈ (SuperLU_Methods h o mem c).trace →
        (((SuperLU_Methods h o mem c).trace.takeWhile (fun e => !isOptions e)).any
          viewConstruction = true))) := by
  cases c with
  | gssv args =>
    cases args with
    | none => simp [Call.option_dict] at hd
    | some a =>
      simp only [Call.option_dict] at hd
      have hrej := unrecognized_rejected h 0 d hu
      rw [← hd] at hrej
      refine ⟨?_, ?_, ?_⟩
      · cases h1 : h._CHECK_INTEGER a.colind <;> cases h2 : h._CHECK_INTEGER a.rowptr <;>
        cases h3 : h.CHECK_SLU_TYPE a.nzvals.typenum <;>
        simp [SuperLU_Methods, Py_gssv, h1, h2, h3, hrej]
      · intro _ _
        cases h1 : h._CHECK_INTEGER a.colind <;> cases h2 : h._CHECK_INTEGER a.rowptr <;>
        cases h3 : h.CHECK_SLU_TYPE a.nzvals.typenum <;>
        simp [SuperLU_Methods, Py_gssv, h1, h2, h3, hrej, viewConstruction]
      · intro _ hc
        cases hc
  | gstrf args =>
    cases args with
    | none => simp [Call.option_dict] at hd
    | some a =>
      simp only [Call.option_dict] at hd
      have hrej := unrecognized_rejected h a.ilu d hu
      rw [← hd] at hrej
      refine ⟨?_, ?_, ?_⟩
      · cases h1 : h._CHECK_INTEGER a.colptr <;> cases h2 : h._CHECK_INTEGER a.rowind <;>
        cases h3 : h.CHECK_SLU_TYPE a.nzvals.typenum <;>
        by_cases h4 : o.NCFormat.status = 0 <;>
        simp [SuperLU_Methods, Py_gstrf, h1, h2, h3, h4, hrej, NCFormat_from_spMatrix,
          newSuperLUObject]
      · intro _ hc
        cases hc
      · intro _ _
        simp only [SuperLU_Methods]
        refine ⟨Py_gstrf_viewSafe h o mem (some a), ?_⟩
        rcases Py_gstrf_traces h o mem (some a) with ht | ⟨msg, ht⟩ | ⟨s, st, ht⟩ | ⟨s, st, ht⟩
        · simp [ht, track]
        · simp [ht, track, track_step, allocates, releases]
        · rw [ht]
          cases st <;>
          simp [track, track_step, allocates, releases, Resource.ofHandle]
        · rw [ht]
          cases st <;>
          simp [track, track_step, allocates, releases, Resource.ofHandle, isOptions,
            viewConstruction]

/-- C1 (witness): the amended statement at the example `gssv` call with the unrecognized
key `NotARealOption`. -/
theorem unrecognized_option_fails_witness :
    Call.option_dict (Call.gssv (some exampleGssvUnknownKey)) = some exampleUnknownKey ∧
    hasUnrecognized exampleHost exampleUnknownKey = true ∧
    ((∃ e, (SuperLU_Methods exampleHost exampleOracle exampleMemory
        (Call.gssv (some exampleGssvUnknownKey))).result = Except.error e) ∧
    (∀ a, Call.gssv (some exampleGssvUnknownKey) = Call.gssv a →
      (SuperLU_Methods exampleHost exampleOracle exampleMemory
        (Call.gssv (some exampleGssvUnknownKey))).trace.any viewConstruction = false) ∧
    (∀ a, Call.gssv (some exampleGssvUnknownKey) = Call.gstrf a →
      (SuperLU_Methods exampleHost exampleOracle exampleMemory
        (Call.gssv (some exampleGssvUnknownKey))).trace.all viewSafe = true ∧
      track Resource.A (SuperLU_Methods exampleHost exampleOracle exampleMemory
        (Call.gssv (some exampleGssvUnknownKey))).trace = some false ∧
      (Event.set_superlu_options_from_dict ∈ (SuperLU_Methods exampleHost exampleOracle
          exampleMemory (Call.gssv (some exampleGssvUnknownKey))).trace →
        (((SuperLU_Methods exampleHost exampleOracle exampleMemory
          (Call.gssv (some exampleGssvUnknownKey))).trace.takeWhile
            (fun e => !isOptions e)).any viewConstruction = true)))) :=
  ⟨rfl, by decide,
   unrecognized_option_fails exampleHost exampleOracle exampleMemory
     (Call.gssv (some exampleGssvUnknownKey)) exampleUnknownKey rfl (by decide)⟩

/-- C2: a call of `Py_gssv` or `Py_gstrf` whose index arrays are not both of the C-int kind,
or whose value array is not of a kind supported by SuperLU, fails with a `TypeError`
raised by `PyErr_SetString`; that is the only call it makes (no options translation, no
dense copy, no matrix view, no allocation, no native routine), and host memory is
unchanged. -/
theorem type_mismatch_fails_first (h : Host) (o : Oracle) (mem : Memory) (c : Call)
    (hb : Call.badTypes h c = true) :
    ∃ msg, (SuperLU_Methods h o mem c).result = Except.error (Failure.raised Exc.TypeError msg) ∧
      (SuperLU_Methods h o mem c).trace = [Event.PyErr_SetString Exc.TypeError msg] ∧
      (SuperLU_Methods h o mem c).mem = mem := by
  cases c with
  | gssv args =>
    cases args with
    | none => simp [Call.badTypes] at hb
    | some a =>
      cases h1 : h._CHECK_INTEGER a.colind <;> cases h2 : h._CHECK_INTEGER a.rowptr <;>
      cases h3 : h.CHECK_SLU_TYPE a.nzvals.typenum <;>
      simp [Call.badTypes, h1, h2, h3] at hb <;>
      simp [SuperLU_Methods, Py_gssv, h1, h2, h3]
  | gstrf args =>
    cases args with
    | none => simp [Call.badTypes] at hb
    | some a =>
      cases h1 : h._CHECK_INTEGER a.colptr <;> cases h2 : h._CHECK_INTEGER a.rowind <;>
      cases h3 : h.CHECK_SLU_TYPE a.nzvals.typenum <;>
      simp [Call.badTypes, h1, h2, h3] at hb <;>
      simp [SuperLU_Methods, Py_gstrf, h1, h2, h3]

/-- C2 (witness): the example `gssv` call with the wide column-index array. -/
theorem type_mismatch_fails_first_witness :
    Call.badTypes exampleHost (Call.gssv (some exampleGssvWideIndex)) = true ∧
    ∃ msg, (SuperLU_Methods exampleHost exampleOracle exampleMemory
        (Call.gssv (some exampleGssvWideIndex))).result
        = Except.error (Failure.raised Exc.TypeError msg) ∧
      (SuperLU_Methods exampleHost exampleOracle exampleMemory
        (Call.gssv (some exampleGssvWideIndex))).trace
        = [Event.PyErr_SetString Exc.TypeError msg] ∧
      (SuperLU_Methods exampleHost exampleOracle exampleMemory
        (Call.gssv (some exampleGssvWideIndex))).mem = exampleMemory :=
  ⟨by decide,
   type_mismatch_fails_first exampleHost exampleOracle exampleMemory
     (Call.gssv (some exampleGssvWideIndex)) (by decide)⟩

/-- C3 (code bug): the abrupt path of `Py_gssv` leaves the permutation vectors allocated.
In the example call `gssv` ends in `longjmp` after both `intMalloc` calls have returned
their vectors.  `perm_r` and `perm_c` are not volatile pointers (line 82) and were
assigned after the `setjmp`, so the `fail` label reads them back as NULL: both
`SUPERLU_FREE` calls get the NULL pointer, neither vector is released, and both are
still allocated when the function returns. -/
theorem Py_gssv_leaks_permutations_after_longjmp :
    Event.setjmp ∈
      (Py_gssv exampleHost exampleAbortOracle exampleMemory (some exampleGssv)).trace ∧
    Event.longjmp ∈
      (Py_gssv exampleHost exampleAbortOracle exampleMemory (some exampleGssv)).trace ∧
    Event.intMalloc Perm.perm_c (MallocOutcome.returned (some 200)) ∈
      (Py_gssv exampleHost exampleAbortOracle exampleMemory (some exampleGssv)).trace ∧
    Event.intMalloc Perm.perm_r (MallocOutcome.returned (some 201)) ∈
      (Py_gssv exampleHost exampleAbortOracle exampleMemory (some exampleGssv)).trace ∧
    Event.SUPERLU_FREE Perm.perm_r none ∈
      (Py_gssv exampleHost exampleAbortOracle exampleMemory (some exampleGssv)).trace ∧
    Event.SUPERLU_FREE Perm.perm_c none ∈
      (Py_gssv exampleHost exampleAbortOracle exampleMemory (some exampleGssv)).trace ∧
    (Py_gssv exampleHost exampleAbortOracle exampleMemory (some exampleGssv)).trace.countP
      (releases Resource.perm_r) = 0 ∧
    (Py_gssv exampleHost exampleAbortOracle exampleMemory (some exampleGssv)).trace.countP
      (releases Resource.perm_c) = 0 ∧
    track Resource.perm_r
      (Py_gssv exampleHost exampleAbortOracle exampleMemory (some exampleGssv)).trace
        = some true ∧
    track Resource.perm_c
      (Py_gssv exampleHost exampleAbortOracle exampleMemory (some exampleGssv)).trace
        = some true := by
  refine ⟨by decide, by decide, by decide, by decide, by decide, by decide, by rfl, by rfl,
    by rfl, by rfl⟩

/-- C4: on every exit path of `Py_gssv` and `Py_gstrf` no buffer-freeing destroy
(`Destroy_SuperNode_Matrix`, `Destroy_CompCol_Matrix`, `Destroy_CompCol_Permuted`) is
applied to the borrowed views `A` and `B`; every releasing call on `A` or `B` is the
descriptor-only `Destroy_SuperMatrix_Store` (directly or through
`XDestroy_SuperMatrix_Store`). -/
theorem views_only_descriptor_destroyed (h : Host) (o : Oracle) (mem : Memory) (c : Call) :
    (SuperLU_Methods h o mem c).trace.all viewSafe = true := by
  cases c with
  | gssv call =>
    simp only [SuperLU_Methods]
    rcases Py_gssv_paths h o mem call with he | ⟨a, f, _, hrun, hf⟩
    · rw [List.all_eq_true]
      intro e hmem
      exact (earlyEvent_facts _ e (List.all_eq_true.mp he.h_early e hmem)).1
    · obtain ⟨rest, htr, hrest⟩ := gssv_protected_trace o f
      rw [hrun, htr, List.all_eq_true]
      intro e hmem
      rcases List.mem_append.mp hmem with h1 | h1
      · exact (earlyEvent_facts _ e (List.all_eq_true.mp hf.h_early e h1)).1
      · simp only [List.mem_cons] at h1
        rcases h1 with rfl | rfl | rfl | h1
        · rfl
        · rfl
        · rfl
        · exact (lateEvent_facts _ e (List.all_eq_true.mp hrest e h1)).1
  | gstrf call =>
    simp only [SuperLU_Methods]
    rcases Py_gstrf_traces h o mem call with ht | ⟨msg, ht⟩ | ⟨s, st, ht⟩ | ⟨s, st, ht⟩ <;>
    rw [ht] <;>
    simp [viewSafe, bufferFreeing, releaseCall, descriptorOnly, Resource.ofHandle]

/-- C5 (counterexample): `XDestroy_SuperMatrix_Store` makes no NULL check.  On a handle whose
`Store` is NULL the native `Destroy_SuperMatrix_Store` is still invoked (with the NULL
pointer). -/
theorem XDestroy_SuperMatrix_Store_calls_native_on_null :
    (XDestroy_SuperMatrix_Store Handle.A { nrow := 0, ncol := 0, Store := none } []).2
      = [Event.Destroy_SuperMatrix_Store Handle.A none] := by
  rfl

/-- C5 (amended): on a handle whose pointer is NULL, `XDestroy_SuperNode_Matrix`,
`XDestroy_CompCol_Matrix`, `XDestroy_CompCol_Permuted` and `XStatFree` do not invoke
the native destroy routine (the trace is left as it was), while
`XDestroy_SuperMatrix_Store` invokes `Destroy_SuperMatrix_Store` once, on the NULL
pointer, which releases nothing.  `XDestroy_SuperMatrix_Store` makes that call on every
handle, with the `Store` pointer of the handle, and then clears `Store`. -/
theorem guarded_wrappers_skip_null (h : Handle) (A : SuperMatrix) (stat : SuperLUStat_t)
    (tr : List Event) (r : Resource) (hA : A.Store = none) (hs : stat.ops = none) :
    (XDestroy_SuperNode_Matrix h A tr).2 = tr ∧
    (XDestroy_CompCol_Matrix h A tr).2 = tr ∧
    (XDestroy_CompCol_Permuted h A tr).2 = tr ∧
    (XStatFree stat tr).2 = tr ∧
    (XDestroy_SuperMatrix_Store h A tr).2 = tr ++ [Event.Destroy_SuperMatrix_Store h none] ∧
    releases r (Event.Destroy_SuperMatrix_Store h none) = false ∧
    (∀ (A1 : SuperMatrix) (tr1 : List Event),
      (XDestroy_SuperMatrix_Store h A1 tr1).2
        = tr1 ++ [Event.Destroy_SuperMatrix_Store h A1.Store] ∧
      (XDestroy_SuperMatrix_Store h A1 tr1).1.Store = none) := by
  refine ⟨?_, ?_, ?_, ?_, ?_, ?_, fun A1 tr1 => ⟨rfl, rfl⟩⟩ <;>
  simp [XDestroy_SuperNode_Matrix, XDestroy_CompCol_Matrix, XDestroy_CompCol_Permuted,
    XStatFree, XDestroy_SuperMatrix_Store, Destroy_SuperMatrix_Store, hA, hs, releases]

/-- C5 (witness): the amended statement at a handle with a NULL `Store` and a statistics
record with NULL `ops`. -/
theorem guarded_wrappers_skip_null_witness :
    exampleNullHandle.Store = none ∧ exampleNullStat.ops = none ∧
    ((XDestroy_SuperNode_Matrix Handle.L exampleNullHandle [Event.setjmp]).2 = [Event.setjmp] ∧
    (XDestroy_CompCol_Matrix Handle.L exampleNullHandle [Event.setjmp]).2 = [Event.setjmp] ∧
    (XDestroy_CompCol_Permuted Handle.L exampleNullHandle [Event.setjmp]).2 = [Event.setjmp] ∧
    (XStatFree exampleNullStat [Event.setjmp]).2 = [Event.setjmp] ∧
    (XDestroy_SuperMatrix_Store Handle.L exampleNullHandle [Event.setjmp]).2
      = [Event.setjmp] ++ [Event.Destroy_SuperMatrix_Store Handle.L none] ∧
    releases Resource.L (Event.Destroy_SuperMatrix_Store Handle.L none) = false ∧
    (∀ (A1 : SuperMatrix) (tr1 : List Event),
      (XDestroy_SuperMatrix_Store Handle.L A1 tr1).2
        = tr1 ++ [Event.Destroy_SuperMatrix_Store Handle.L A1.Store] ∧
      (XDestroy_SuperMatrix_Store Handle.L A1 tr1).1.Store = none)) :=
  ⟨rfl, rfl,
   guarded_wrappers_skip_null Handle.L exampleNullHandle exampleNullStat [Event.setjmp]
     Resource.L rfl rfl⟩

/-- C6: a `Py_gssv` call that passes the type checks and the options translation, and
whose dense copy of the right-hand side has a first dimension different from `N`,
fails with the `ValueError` "b array has invalid shape".  The calls it has made are the
options translation, the copy, `PyErr_SetString` and one `Py_DECREF` of the copy: no
matrix view is constructed, no native routine is invoked, and the copy is released
exactly once. -/
theorem shape_mismatch_fails (h : Host) (o : Oracle) (mem : Memory) (a : GssvArgs)
    (opts : Dict) (dims content : List Int)
    (hc : h._CHECK_INTEGER a.colind = true) (hr : h._CHECK_INTEGER a.rowptr = true)
    (ht : h.CHECK_SLU_TYPE a.nzvals.typenum = true)
    (ho : set_superlu_options_from_dict h 0 a.option_dict = some opts)
    (hx : o.fromany = some (dims, content))
    (hd : dims.getD 0 0 ≠ a.N) :
    (Py_gssv h o mem (some a)).result =
      Except.error (Failure.raised Exc.ValueError "b array has invalid shape") ∧
    (Py_gssv h o mem (some a)).trace =
      [Event.set_superlu_options_from_dict,
       Event.PyArray_FROMANY a.Py_B (some mem.length),
       Event.PyErr_SetString Exc.ValueError "b array has invalid shape",
       Event.Py_DECREF mem.length] ∧
    (Py_gssv h o mem (some a)).trace.any viewConstruction = false ∧
    (Py_gssv h o mem (some a)).trace.any nativeCall = false ∧
    (Py_gssv h o mem (some a)).trace.countP isDecref = 1 := by
  have key : Py_gssv h o mem (some a) =
      { result := Except.error (Failure.raised Exc.ValueError "b array has invalid shape"),
        trace := [Event.set_superlu_options_from_dict,
                  Event.PyArray_FROMANY a.Py_B (some mem.length),
                  Event.PyErr_SetString Exc.ValueError "b array has invalid shape",
                  Event.Py_DECREF mem.length],
        mem := mem ++ [content] } := by
    simp [Py_gssv, hc, hr, ht, ho, hx, hd, PyArray_FROMANY, -List.getD_eq_getElem?_getD]
  rw [key]
  simp [viewConstruction, nativeCall, isDecref]

/-- C6 (witness): the example call with `N = 3` against a right-hand side of 2 rows. -/
theorem shape_mismatch_fails_witness :
    exampleHost._CHECK_INTEGER exampleGssvWrongShape.colind = true ∧
    exampleHost._CHECK_INTEGER exampleGssvWrongShape.rowptr = true ∧
    exampleHost.CHECK_SLU_TYPE exampleGssvWrongShape.nzvals.typenum = true ∧
    set_superlu_options_from_dict exampleHost 0 exampleGssvWrongShape.option_dict = some [] ∧
    exampleOracle.fromany = some ([2], [5, 7]) ∧
    ([2] : List Int).getD 0 0 ≠ exampleGssvWrongShape.N ∧
    ((Py_gssv exampleHost exampleOracle exampleMemory (some exampleGssvWrongShape)).result =
      Except.error (Failure.raised Exc.ValueError "b array has invalid shape") ∧
    (Py_gssv exampleHost exampleOracle exampleMemory (some exampleGssvWrongShape)).trace =
      [Event.set_superlu_options_from_dict,
       Event.PyArray_FROMANY exampleGssvWrongShape.Py_B (some exampleMemory.length),
       Event.PyErr_SetString Exc.ValueError "b array has invalid shape",
       Event.Py_DECREF exampleMemory.length] ∧
    (Py_gssv exampleHost exampleOracle exampleMemory
      (some exampleGssvWrongShape)).trace.any viewConstruction = false ∧
    (Py_gssv exampleHost exampleOracle exampleMemory
      (some exampleGssvWrongShape)).trace.any nativeCall = false ∧
    (Py_gssv exampleHost exampleOracle exampleMemory
      (some exampleGssvWrongShape)).trace.countP isDecref = 1) :=
  ⟨by decide, by decide, by decide, rfl, rfl, by decide,
   shape_mismatch_fails exampleHost exampleOracle exampleMemory exampleGssvWrongShape
     [] [2] [5, 7] (by decide) (by decide) (by decide) rfl rfl (by decide)⟩

/-- C7: when `gssv` returns normally with diagnostic code `info`, whatever integer `info`
is, `Py_gssv` succeeds and returns the pair of the dense copy made by `PyArray_FROMANY`
(the buffer `gssv` was given as `B`) and `info` unchanged. -/
theorem gssv_info_returned_unchanged (h : Host) (o : Oracle) (mem : Memory)
    (call : Option GssvArgs) (B l u : Option Store) (info : Int)
    (hg : Event.gssv B (GssvOutcome.returned l u info) ∈ (Py_gssv h o mem call).trace) :
    ∃ X a, call = some a ∧
      (Py_gssv h o mem call).result = Except.ok (PyObject.tuple X info) ∧
      Event.PyArray_FROMANY a.Py_B (some X.data) ∈ (Py_gssv h o mem call).trace ∧
      (∀ st, B = some st → st.nzval = X.data) := by
  rcases Py_gssv_paths h o mem call with he | ⟨a, f, hcall, hrun, hf⟩
  · exfalso
    have := List.all_eq_true.mp he.h_early _ hg
    simp [earlyEvent] at this
  · have hno : ∀ C out, Event.gssv C out ∉ f.trace := by
      intro C out hmem
      have := List.all_eq_true.mp hf.h_early _ hmem
      simp [earlyEvent] at this
    rw [hrun] at hg ⊢
    obtain ⟨hres, hB⟩ := gssv_protected_result o f B l u info hno hg
    refine ⟨f.Py_X, a, hcall, hres, ?_, ?_⟩
    · obtain ⟨rest, htr, _⟩ := gssv_protected_trace o f
      rw [htr, hf.h_data]
      exact List.mem_append_left _ hf.h_copy
    · intro st hst
      rw [hf.h_data]
      exact hf.h_view st (by rw [← hB, hst])

/-- C7 (witness): the example call with `gssv` returning the non-zero diagnostic code 2. -/
theorem gssv_info_returned_unchanged_witness :
    Event.gssv (some { addr := 102, nzval := 4 })
        (GssvOutcome.returned (some { addr := 400, nzval := 401 })
          (some { addr := 500, nzval := 501 }) 2) ∈
      (Py_gssv exampleHost exampleSingularOracle exampleMemory (some exampleGssv)).trace ∧
    ∃ X a, some exampleGssv = some a ∧
      (Py_gssv exampleHost exampleSingularOracle exampleMemory (some exampleGssv)).result
        = Except.ok (PyObject.tuple X 2) ∧
      Event.PyArray_FROMANY a.Py_B (some X.data) ∈
        (Py_gssv exampleHost exampleSingularOracle exampleMemory (some exampleGssv)).trace ∧
      (∀ st, (some { addr := 102, nzval := 4 } : Option Store) = some st → st.nzval = X.data) :=
  ⟨by decide,
   gssv_info_returned_unchanged exampleHost exampleSingularOracle exampleMemory
     (some exampleGssv) (some { addr := 102, nzval := 4 })
     (some { addr := 400, nzval := 401 }) (some { addr := 500, nzval := 501 }) 2 (by decide)⟩

/-- C8 (counterexample): in a well-formed `Py_gssv` call the matrix views are created by
`NCFormat_from_spMatrix` and `DenseSuper_from_Numeric` before the `setjmp`; and a
well-formed `Py_gstrf` call makes its native calls without any `setjmp` of its own. -/
theorem native_calls_precede_setjmp :
    beforeSetjmp (Py_gssv exampleHost exampleOracle exampleMemory (some exampleGssv)).trace
      = [Event.set_superlu_options_from_dict,
         Event.PyArray_FROMANY 0 (some 4),
         Event.NCFormat_from_spMatrix Handle.A 0 (some { addr := 100, nzval := 1 }),
         Event.DenseSuper_from_Numeric Handle.B 4 0 (some { addr := 102, nzval := 4 }),
         Event.superlu_python_jmpbuf,
         Event.SLU_BEGIN_THREADS] ∧
    (beforeSetjmp (Py_gssv exampleHost exampleOracle exampleMemory
        (some exampleGssv)).trace).any nativeCall = true ∧
    Event.setjmp ∈ (Py_gssv exampleHost exampleOracle exampleMemory (some exampleGssv)).trace ∧
    (Py_gstrf exampleHost exampleOracle exampleMemory (some exampleGstrf)).trace.countP isSetjmp
      = 0 ∧
    (Py_gstrf exampleHost exampleOracle exampleMemory (some exampleGstrf)).trace.any nativeCall
      = true := by
  refine ⟨by rfl, by rfl, by decide, by rfl, by rfl⟩

/-- C8 (amended): each call establishes at most one recovery point.  In `Py_gssv` the
`setjmp` comes before every `intMalloc`, `StatInit` and `gssv` call and before the release
of the permutation vectors, of `B`, of the factors and of the statistics, and it is
executed exactly once in every call that makes one of these calls; the matrix views
are never created after it (they are created, and `A` is destroyed when the dense view
fails, before it or without it).  `Py_gstrf` establishes no recovery point in its own
body. -/
theorem recovery_point_before_solver (h : Host) (o : Oracle) (mem : Memory) (c : Call) :
    (SuperLU_Methods h o mem c).trace.countP isSetjmp ≤ 1 ∧
    (beforeSetjmp (SuperLU_Methods h o mem c).trace).any underRecovery = false ∧
    ((SuperLU_Methods h o mem c).trace.any underRecovery = true →
      (SuperLU_Methods h o mem c).trace.countP isSetjmp = 1) ∧
    (afterSetjmp (SuperLU_Methods h o mem c).trace).any viewConstruction = false ∧
    (∀ a, c = Call.gstrf a → (SuperLU_Methods h o mem c).trace.countP isSetjmp = 0) := by
  cases c with
  | gssv call =>
    simp only [SuperLU_Methods]
    rcases Py_gssv_paths h o mem call with he | ⟨a, f, _, hrun, hf⟩
    · refine ⟨?_, ?_, ?_, ?_, ?_⟩
      · rw [countP_isSetjmp_early _ _ he.h_early]; exact Nat.zero_le _
      · rw [beforeSetjmp_early _ _ he.h_early]; exact underRecovery_early _ _ he.h_early
      · intro hany
        rw [underRecovery_early _ _ he.h_early] at hany
        cases hany
      · rw [afterSetjmp_early _ _ he.h_early]; rfl
      · intro _ hc; cases hc
    · obtain ⟨rest, htr, hrest⟩ := gssv_protected_trace o f
      have hcount : (gssv_protected o f).trace.countP isSetjmp = 1 := by
        rw [htr]
        simp [List.countP_append, List.countP_cons, isSetjmp,
          countP_isSetjmp_early _ _ hf.h_early, countP_isSetjmp_late _ _ hrest]
      have hpos : ∀ e ∈ f.trace, (!isSetjmp e) = true := by
        intro e he
        simp [(earlyEvent_facts _ e (List.all_eq_true.mp hf.h_early e he)).2.1]
      have hbefore : beforeSetjmp (gssv_protected o f).trace =
          f.trace ++ [Event.superlu_python_jmpbuf, Event.SLU_BEGIN_THREADS] := by
        rw [htr]
        unfold beforeSetjmp
        rw [List.takeWhile_append_of_pos hpos]
        simp [List.takeWhile_cons, isSetjmp]
      have hafter : afterSetjmp (gssv_protected o f).trace = Event.setjmp :: rest := by
        rw [htr]
        unfold afterSetjmp
        rw [List.dropWhile_append_of_pos hpos]
        simp [List.dropWhile_cons, isSetjmp]
      rw [hrun]
      refine ⟨le_of_eq hcount, ?_, fun _ => hcount, ?_, ?_⟩
      · rw [hbefore, List.any_append, underRecovery_early _ _ hf.h_early]
        rfl
      · rw [hafter, Bool.eq_false_iff]
        intro hany
        obtain ⟨e, he, hv⟩ := List.any_eq_true.mp hany
        rcases List.mem_cons.mp he with rfl | he
        · cases hv
        · rw [(lateEvent_facts _ e (List.all_eq_true.mp hrest e he)).2.2] at hv
          cases hv
      · intro _ hc; cases hc
  | gstrf call =>
    simp only [SuperLU_Methods]
    rcases Py_gstrf_traces h o mem call with ht | ⟨msg, ht⟩ | ⟨s, st, ht⟩ | ⟨s, st, ht⟩ <;>
    rw [ht] <;>
    simp [beforeSetjmp, afterSetjmp, isSetjmp, underRecovery, viewConstruction,
      List.countP_cons, List.takeWhile_cons, List.dropWhile_cons]

/-- C8 (witness): in the example `gssv` call the solver routines are invoked, and the trace
holds exactly one `setjmp`, with none of them before it. -/
theorem recovery_point_before_solver_witness :
    (SuperLU_Methods exampleHost exampleOracle exampleMemory
      (Call.gssv (some exampleGssv))).trace.any underRecovery = true ∧
    (SuperLU_Methods exampleHost exampleOracle exampleMemory
      (Call.gssv (some exampleGssv))).trace.countP isSetjmp = 1 ∧
    (beforeSetjmp (SuperLU_Methods exampleHost exampleOracle exampleMemory
      (Call.gssv (some exampleGssv))).trace).any underRecovery = false :=
  have w := recovery_point_before_solver exampleHost exampleOracle exampleMemory
    (Call.gssv (some exampleGssv))
  ⟨by rfl, w.2.2.1 (by rfl), w.2.1⟩

/-- C10 (counterexample): applying `XDestroy_SuperMatrix_Store` twice invokes the native
`Destroy_SuperMatrix_Store` twice; the second application does not invoke it zero
further times. -/
theorem XDestroy_SuperMatrix_Store_twice_calls_native_twice :
    (XDestroy_SuperMatrix_Store Handle.A
        (XDestroy_SuperMatrix_Store Handle.A
          { nrow := 2, ncol := 2, Store := some { addr := 7, nzval := 9 } } []).1
        (XDestroy_SuperMatrix_Store Handle.A
          { nrow := 2, ncol := 2, Store := some { addr := 7, nzval := 9 } } []).2).2
      = [Event.Destroy_SuperMatrix_Store Handle.A (some { addr := 7, nzval := 9 }),
         Event.Destroy_SuperMatrix_Store Handle.A none] := by
  rfl

/-- C10 (amended): every wrapper clears its handle, and a second application leaves
the handle unchanged.  For `XDestroy_SuperNode_Matrix`, `XDestroy_CompCol_Matrix`,
`XDestroy_CompCol_Permuted` and `XStatFree` the second application invokes the native
destroy zero further times.  `XDestroy_SuperMatrix_Store` invokes
`Destroy_SuperMatrix_Store` on each application, the second time on the NULL pointer,
which releases nothing; so no block is released twice. -/
theorem wrappers_clear_and_repeat (h : Handle) (A : SuperMatrix) (stat : SuperLUStat_t)
    (tr tr2 : List Event) (r : Resource) :
    ((XDestroy_SuperMatrix_Store h A tr).1.Store = none ∧
     (XDestroy_SuperNode_Matrix h A tr).1.Store = none ∧
     (XDestroy_CompCol_Matrix h A tr).1.Store = none ∧
     (XDestroy_CompCol_Permuted h A tr).1.Store = none ∧
     (XStatFree stat tr).1.ops = none) ∧
    (XDestroy_SuperMatrix_Store h (XDestroy_SuperMatrix_Store h A tr).1 tr2
       = ((XDestroy_SuperMatrix_Store h A tr).1,
          tr2 ++ [Event.Destroy_SuperMatrix_Store h none]) ∧
     releases r (Event.Destroy_SuperMatrix_Store h none) = false) ∧
    (XDestroy_SuperNode_Matrix h (XDestroy_SuperNode_Matrix h A tr).1 tr2
       = ((XDestroy_SuperNode_Matrix h A tr).1, tr2) ∧
     XDestroy_CompCol_Matrix h (XDestroy_CompCol_Matrix h A tr).1 tr2
       = ((XDestroy_CompCol_Matrix h A tr).1, tr2) ∧
     XDestroy_CompCol_Permuted h (XDestroy_CompCol_Permuted h A tr).1 tr2
       = ((XDestroy_CompCol_Permuted h A tr).1, tr2) ∧
     XStatFree (XStatFree stat tr).1 tr2 = ((XStatFree stat tr).1, tr2)) := by
  refine ⟨⟨rfl, rfl, rfl, rfl, rfl⟩, ⟨rfl, ?_⟩, ?_, ?_, ?_, ?_⟩
  · simp [releases]
  · cases hS : A.Store <;>
      simp [XDestroy_SuperNode_Matrix, Destroy_SuperNode_Matrix, hS]
  · cases hS : A.Store <;>
      simp [XDestroy_CompCol_Matrix, Destroy_CompCol_Matrix, hS]
  · cases hS : A.Store <;>
      simp [XDestroy_CompCol_Permuted, Destroy_CompCol_Permuted, hS]
  · cases hS : stat.ops <;> simp [XStatFree, StatFree, hS]

end SuperLU
